import Mathlib

/-!
Verification of the ostresser worker-orchestration and statistics engine.

This file gives a shallow embedding of the Go sources of perbu/ostresser
(package stresser: metrics.go, manifest.go, and the worker/orchestration
file) and proves the specified properties about it.

Modelling conventions:
* Go `time.Duration` (an `int64` of nanoseconds) is modelled as `Int`;
  int64 overflow is not modelled (the measured latencies of a bounded run
  are far below the overflow range).
* Go integer division truncates toward zero, so it is modelled by
  `Int.tdiv`.
* Go `sort.Slice` ascending sort is modelled by `List.insertionSort (· ≤ ·)`:
  any sorting algorithm yields the same list (the unique `≤`-sorted
  permutation).
* Effectful calls (S3 requests, file IO, clocks, contexts) are modelled by
  passing their outcomes explicitly as parameters.
-/

namespace Ostresser

/-- Go `time.Duration`: a count of nanoseconds (int64 in Go, `Int` here). -/
abbrev Duration := Int

/-- From metrics.go: `Result` holds the metrics for a single S3 operation
(GET or PUT). `Timestamp` is a clock reading in nanoseconds. -/
structure Result where
  Timestamp : Int
  Operation : String
  ObjectKey : String
  TTFB : Duration
  TTLB : Duration
  BytesDownloaded : Int
  BytesUploaded : Int
  Error : String
deriving DecidableEq

/-- From metrics.go: `Stats` aggregates results from multiple operations.
The `sync.Mutex` field is omitted (it guards nothing in the sequential
aggregation path). -/
structure Stats where
  TotalRequests : Int
  TotalGets : Int
  TotalPuts : Int
  TotalErrors : Int
  TotalBytesDown : Int
  TotalBytesUp : Int
  Concurrency : Int
  GetTTFBs : List Duration
  GetTTLBs : List Duration
  PutTTLBs : List Duration
  MinGetTTFB : Duration
  MaxGetTTFB : Duration
  AvgGetTTFB : Duration
  P50GetTTFB : Duration
  P90GetTTFB : Duration
  P99GetTTFB : Duration
  MinGetTTLB : Duration
  MaxGetTTLB : Duration
  AvgGetTTLB : Duration
  P50GetTTLB : Duration
  P90GetTTLB : Duration
  P99GetTTLB : Duration
  MinPutTTLB : Duration
  MaxPutTTLB : Duration
  AvgPutTTLB : Duration
  P50PutTTLB : Duration
  P90PutTTLB : Duration
  P99PutTTLB : Duration
  startTime : Int
  endTime : Int
  actualDuration : Int
deriving DecidableEq

/-- From metrics.go `NewStats`: `largeDuration := time.Hour * 24`
in nanoseconds. -/
def largeDuration : Duration := 86400000000000

/-- From metrics.go: `NewStats` initializes a Stats object, with Min values
high and Max values negative for comparison; every other field is the Go
zero value. -/
def NewStats : Stats where
  TotalRequests := 0
  TotalGets := 0
  TotalPuts := 0
  TotalErrors := 0
  TotalBytesDown := 0
  TotalBytesUp := 0
  Concurrency := 0
  GetTTFBs := []
  GetTTLBs := []
  PutTTLBs := []
  MinGetTTFB := largeDuration
  MaxGetTTFB := -1
  AvgGetTTFB := 0
  P50GetTTFB := 0
  P90GetTTFB := 0
  P99GetTTFB := 0
  MinGetTTLB := largeDuration
  MaxGetTTLB := -1
  AvgGetTTLB := 0
  P50GetTTLB := 0
  P90GetTTLB := 0
  P99GetTTLB := 0
  MinPutTTLB := largeDuration
  MaxPutTTLB := -1
  AvgPutTTLB := 0
  P50PutTTLB := 0
  P90PutTTLB := 0
  P99PutTTLB := 0
  startTime := 0
  endTime := 0
  actualDuration := 0

/-- From metrics.go: `Stats.AddResult` incorporates a single result into the
aggregate statistics: bump the total counter and the per-kind counter, and
for a failed request stop after bumping the error counter, otherwise append
the latencies to the per-kind sample lists and update byte totals and
running min/max. -/
def Stats.AddResult (s : Stats) (r : Result) : Stats :=
  let s1 := { s with TotalRequests := s.TotalRequests + 1 }
  let s2 :=
    if r.Operation = "GET" then { s1 with TotalGets := s1.TotalGets + 1 }
    else if r.Operation = "PUT" then { s1 with TotalPuts := s1.TotalPuts + 1 }
    else s1
  if r.Error ≠ "" then
    { s2 with TotalErrors := s2.TotalErrors + 1 }
  else if r.Operation = "GET" then
    { s2 with
      TotalBytesDown := s2.TotalBytesDown + r.BytesDownloaded
      GetTTFBs := s2.GetTTFBs ++ [r.TTFB]
      GetTTLBs := s2.GetTTLBs ++ [r.TTLB]
      MinGetTTFB := if r.TTFB < s2.MinGetTTFB then r.TTFB else s2.MinGetTTFB
      MaxGetTTFB := if r.TTFB > s2.MaxGetTTFB then r.TTFB else s2.MaxGetTTFB
      MinGetTTLB := if r.TTLB < s2.MinGetTTLB then r.TTLB else s2.MinGetTTLB
      MaxGetTTLB := if r.TTLB > s2.MaxGetTTLB then r.TTLB else s2.MaxGetTTLB }
  else if r.Operation = "PUT" then
    { s2 with
      TotalBytesUp := s2.TotalBytesUp + r.BytesUploaded
      PutTTLBs := s2.PutTTLBs ++ [r.TTLB]
      MinPutTTLB := if r.TTLB < s2.MinPutTTLB then r.TTLB else s2.MinPutTTLB
      MaxPutTTLB := if r.TTLB > s2.MaxPutTTLB then r.TTLB else s2.MaxPutTTLB }
  else s2

/-- From metrics.go: `sortDurations` sorts a duration slice ascending
(`sort.Slice` with `data[i] < data[j]`); modelled as the unique ascending
sorted permutation. -/
def sortDurations (data : List Duration) : List Duration :=
  List.insertionSort (· ≤ ·) data

/-- From metrics.go: `averageDuration` returns 0 on an empty slice and the
truncating integer mean otherwise. -/
def averageDuration (data : List Duration) : Duration :=
  if data.length = 0 then 0
  else data.sum.tdiv data.length

/-- From metrics.go: `percentileDuration`. Empty data yields 0; one sample
is returned for every percentile; with two samples `p <= 50` selects the
first and otherwise the second; with more samples the nearest-rank index
`(p * len) / 100` is clamped into bounds and used to index the sorted
slice. -/
def percentileDuration (sortedData : List Duration) (p : Int) : Duration :=
  if sortedData.length = 0 then 0
  else if sortedData.length ≤ 2 then
    if sortedData.length = 1 then sortedData.getD 0 0
    else if p ≤ 50 then sortedData.getD 0 0
    else sortedData.getD 1 0
  else
    let index : Int := (p * (sortedData.length : Int)).tdiv 100
    let index2 : Int := if index < 0 then 0 else index
    let index3 : Int :=
      if index2 ≥ (sortedData.length : Int) then (sortedData.length : Int) - 1 else index2
    sortedData.getD index3.toNat 0

/-- From metrics.go `Stats.Calculate`, first reset block: if no successful
GET produced a TTFB sample, replace the untouched initialization values of
MinGetTTFB/MaxGetTTFB by 0. -/
def resetEmptyGetTTFB (s : Stats) : Stats :=
  if s.GetTTFBs.length = 0 then
    let a := if s.MinGetTTFB = largeDuration then { s with MinGetTTFB := 0 } else s
    if a.MaxGetTTFB = -1 then { a with MaxGetTTFB := 0 } else a
  else s

/-- From metrics.go `Stats.Calculate`, second reset block, for
MinGetTTLB/MaxGetTTLB. -/
def resetEmptyGetTTLB (s : Stats) : Stats :=
  if s.GetTTLBs.length = 0 then
    let a := if s.MinGetTTLB = largeDuration then { s with MinGetTTLB := 0 } else s
    if a.MaxGetTTLB = -1 then { a with MaxGetTTLB := 0 } else a
  else s

/-- From metrics.go `Stats.Calculate`, third reset block, for
MinPutTTLB/MaxPutTTLB. -/
def resetEmptyPutTTLB (s : Stats) : Stats :=
  if s.PutTTLBs.length = 0 then
    let a := if s.MinPutTTLB = largeDuration then { s with MinPutTTLB := 0 } else s
    if a.MaxPutTTLB = -1 then { a with MaxPutTTLB := 0 } else a
  else s

/-- From metrics.go `Stats.Calculate`, GET block: when TTFB samples exist,
sort both GET sample lists in place and derive average and percentiles. -/
def computeGetStats (s : Stats) : Stats :=
  if 0 < s.GetTTFBs.length then
    { s with
      GetTTFBs := sortDurations s.GetTTFBs
      GetTTLBs := sortDurations s.GetTTLBs
      AvgGetTTFB := averageDuration (sortDurations s.GetTTFBs)
      AvgGetTTLB := averageDuration (sortDurations s.GetTTLBs)
      P50GetTTFB := percentileDuration (sortDurations s.GetTTFBs) 50
      P90GetTTFB := percentileDuration (sortDurations s.GetTTFBs) 90
      P99GetTTFB := percentileDuration (sortDurations s.GetTTFBs) 99
      P50GetTTLB := percentileDuration (sortDurations s.GetTTLBs) 50
      P90GetTTLB := percentileDuration (sortDurations s.GetTTLBs) 90
      P99GetTTLB := percentileDuration (sortDurations s.GetTTLBs) 99 }
  else s

/-- From metrics.go `Stats.Calculate`, PUT block: when PUT samples exist,
sort them in place and derive average and percentiles. -/
def computePutStats (s : Stats) : Stats :=
  if 0 < s.PutTTLBs.length then
    { s with
      PutTTLBs := sortDurations s.PutTTLBs
      AvgPutTTLB := averageDuration (sortDurations s.PutTTLBs)
      P50PutTTLB := percentileDuration (sortDurations s.PutTTLBs) 50
      P90PutTTLB := percentileDuration (sortDurations s.PutTTLBs) 90
      P99PutTTLB := percentileDuration (sortDurations s.PutTTLBs) 99 }
  else s

/-- From metrics.go: `Stats.Calculate` records the run window, resets the
min/max fields of sample-less kinds, and computes the derived figures for
the kinds that have samples, in source order. -/
def Stats.Calculate (s : Stats) (startTime endTime : Int) : Stats :=
  computePutStats (computeGetStats (resetEmptyPutTTLB (resetEmptyGetTTLB (resetEmptyGetTTFB
    { s with startTime := startTime, endTime := endTime,
             actualDuration := endTime - startTime }))))

/-! Manifest model (manifest.go). A file's content is modelled as the
`String` it holds. -/

/-- Character class trimmed by Go `strings.TrimSpace` (`unicode.IsSpace`,
Latin-1 range): tab, newline, vertical tab, form feed, carriage return,
space, next line, no-break space. -/
def isGoSpace (c : Char) : Bool :=
  c = '\t' || c = '\n' || c = Char.ofNat 11 || c = Char.ofNat 12 ||
  c = '\r' || c = ' ' || c = Char.ofNat 133 || c = Char.ofNat 160

/-- Go `strings.TrimSpace`: drop leading and trailing white space. -/
def TrimSpace (s : String) : String :=
  String.mk (((s.toList.dropWhile isGoSpace).reverse.dropWhile isGoSpace).reverse)

/-- Helper for `bufio.ScanLines`: drop one trailing carriage return. -/
def dropCR (l : List Char) : List Char :=
  if l.getLast? = some '\r' then l.dropLast else l

/-- Splitting a character stream into newline-terminated tokens, as
`bufio.Scanner` with `ScanLines` does: a final token before end of input is
produced only if it is non-empty. -/
def splitLinesAux : List Char → List Char → List (List Char)
  | [], cur => if cur.isEmpty then [] else [cur.reverse]
  | c :: rest, cur =>
    if c = '\n' then cur.reverse :: splitLinesAux rest []
    else splitLinesAux rest (c :: cur)

/-- Go `bufio.Scanner` line tokens of a file content. -/
def scanLines (content : String) : List String :=
  (splitLinesAux content.toList []).map (fun l => String.mk (dropCR l))

/-- From manifest.go: `LoadManifest` reads object keys from the manifest
content, trimming whitespace from each line, skipping blank lines, and
failing when no key remains. The file-open and scanner errors of the real
function are outside this model (the content is given). -/
def LoadManifest (content : String) : Except String (List String) :=
  let keys := ((scanLines content).map TrimSpace).filter (fun k => k ≠ "")
  if keys.isEmpty then .error "manifest file is empty or contains no valid keys"
  else .ok keys

/-- From manifest.go: `ManifestWriter.AddKey` appends the key plus a newline
to the manifest file content. -/
def AddKey (content : String) (key : String) : String :=
  content ++ key ++ "\n"

/-! Sequential read key selection (runWorker in the orchestration file). -/

/-- From runWorker: `keyIndex := id % max(keyCount, 1)`, the cursor a worker
starts with. -/
def initialKeyIndex (id keyCount : Nat) : Nat :=
  id % max keyCount 1

/-- The worker's sequential-read cursor right before its n-th GET:
`keyIndex++` runs once after every sequential GET. -/
def keyIndexBefore (id keyCount : Nat) : Nat → Nat
  | 0 => initialKeyIndex id keyCount
  | n + 1 => keyIndexBefore id keyCount n + 1

/-- From runWorker: the index a sequential (non-randomized) read uses for
the n-th GET of worker `id` is `objectKeys[keyIndex%keyCount]`. -/
def sequentialKeyIndex (id keyCount n : Nat) : Nat :=
  keyIndexBefore id keyCount n % keyCount

/-! Operation executor model (performGetOperation / performPutOperation).
The outcomes of the S3 calls, the clock deltas and the body read are inputs. -/

/-- Abstract outcome of one GET attempt: the error of `GetObject` if any,
the elapsed time until its return, the outcome of reading the body (error,
bytes counted, elapsed time until the read ended). -/
structure GetEnv where
  Timestamp : Int
  getErr : Option String
  headerElapsed : Int
  bodyErr : Option String
  bodyBytes : Int
  bodyElapsed : Int
deriving DecidableEq

/-- From the orchestration file: `performGetOperation` builds a Result with
sentinel timings, returns early with the call error text if `GetObject`
fails, records TTFB once headers are in, and on a body-read failure keeps
the valid TTFB and bytes-so-far while recording the error. -/
def performGetOperation (key : String) (env : GetEnv) : Result :=
  let result : Result :=
    { Timestamp := env.Timestamp, Operation := "GET", ObjectKey := key,
      TTFB := -1, TTLB := -1, BytesDownloaded := 0, BytesUploaded := 0, Error := "" }
  match env.getErr with
  | some e => { result with Error := e }
  | none =>
    let result := { result with TTFB := env.headerElapsed }
    match env.bodyErr with
    | some e =>
      { result with
        Error := "body read error: " ++ e
        BytesDownloaded := env.bodyBytes
        TTLB := env.bodyElapsed }
    | none =>
      { result with TTLB := env.bodyElapsed, BytesDownloaded := env.bodyBytes }

/-- Abstract outcome of one PUT attempt: the error of `PutObject` if any and
the elapsed time until the call returned. -/
structure PutEnv where
  Timestamp : Int
  putErr : Option String
  putElapsed : Int
deriving DecidableEq

/-- From the orchestration file: `performPutOperation` builds a Result with
sentinel timings (TTFB stays at the sentinel, being not applicable to PUT),
returns early with the call error text on failure, and otherwise records
the call duration as TTLB and the payload length as bytes uploaded. -/
def performPutOperation (key : String) (dataLen : Nat) (env : PutEnv) : Result :=
  let result : Result :=
    { Timestamp := env.Timestamp, Operation := "PUT", ObjectKey := key,
      TTFB := -1, TTLB := -1, BytesDownloaded := 0, BytesUploaded := 0, Error := "" }
  match env.putErr with
  | some e => { result with Error := e }
  | none =>
    { result with TTLB := env.putElapsed, BytesUploaded := (dataLen : Int) }

/-! Run controller model (RunStressTest in the orchestration file). The
concurrent middle part (workers, channel, waitgroup) is abstracted into the
list of Results the collector drains; the setup steps and the final context
check follow the source control flow. -/

/-- Error state of the run's internal context when the collector finishes:
Go `ctx.Err()` is nil, `context.Canceled`, `context.DeadlineExceeded`, or
some other error. -/
inductive ContextErr where
  | canceled : ContextErr
  | deadlineExceeded : ContextErr
  | other : String → ContextErr
deriving DecidableEq

/-- The configuration fields RunStressTest consults. -/
structure RunConfig where
  OperationType : String
  GenerateManifest : Bool
  FileCount : Int
  Duration : String
  Concurrency : Int
  Randomize : Bool
deriving DecidableEq

/-- Abstract outcomes of the effectful steps of one run: manifest load,
manifest-writer creation, S3 client construction, duration parsing, the
results the workers emitted, the run window, and the internal context's
final error state. -/
structure RunEnv where
  loadManifestRes : Except String (List String)
  newManifestWriterRes : Except String Unit
  newS3ClientRes : Except String Unit
  parseDurationRes : Except String Int
  collectedResults : List Result
  startTime : Int
  endTime : Int
  runCtxErr : Option ContextErr

/-- Whether an `Except` outcome is an error. -/
def isError {α : Type} : Except String α → Bool
  | .error _ => true
  | .ok _ => false

/-- From RunStressTest, steps 2 onwards: S3 client creation, duration
parsing, collection, statistics, and the final internal-context check.
Non-cancellation, non-deadline context errors are returned together with
the collected results and statistics; otherwise the error is nil. -/
def RunStressTestRest (cfg : RunConfig) (env : RunEnv) :
    Option (List Result) × Option Stats × Option String :=
  match env.newS3ClientRes with
  | .error e => (none, none, some ("failed to create S3 client: " ++ e))
  | .ok _ =>
    match env.parseDurationRes with
    | .error e =>
      (none, none, some ("invalid duration format " ++ cfg.Duration ++ ": " ++ e))
    | .ok _ =>
      let allResults := env.collectedResults
      let stats :=
        (allResults.foldl Stats.AddResult NewStats).Calculate env.startTime env.endTime
      match env.runCtxErr with
      | some (.other m) =>
        (some allResults, some stats, some ("test run context ended unexpectedly: " ++ m))
      | _ => (some allResults, some stats, none)

/-- From RunStressTest, step 1 plus the rest: in read/mixed mode a manifest
load failure aborts; in write mode with manifest generation enabled a
manifest-writer creation failure aborts; then the remaining steps run. -/
def RunStressTest (cfg : RunConfig) (env : RunEnv) :
    Option (List Result) × Option Stats × Option String :=
  if cfg.OperationType = "read" ∨ cfg.OperationType = "mixed" then
    match env.loadManifestRes with
    | .error e => (none, none, some ("failed to load manifest for read/mixed mode: " ++ e))
    | .ok _ => RunStressTestRest cfg env
  else if cfg.OperationType = "write" ∧ cfg.GenerateManifest = true then
    match env.newManifestWriterRes with
    | .error e => (none, none, some ("failed to create manifest writer: " ++ e))
    | .ok _ => RunStressTestRest cfg env
  else RunStressTestRest cfg env

/-! Helper lemmas about `percentileDuration`. -/

/-- Truncating division of two natural-number casts is the natural-number
division. -/
lemma ofNat_tdiv (m n : Nat) : ((m : Int)).tdiv (n : Int) = ((m / n : Nat) : Int) := rfl

/-- On more than two samples, `percentileDuration` at a non-negative
percentile is the element at the clamped nearest-rank index. -/
lemma percentileDuration_ofNat (l : List Duration) (pn : Nat) (h2 : 2 < l.length) :
    percentileDuration l (pn : Int) = l.getD (min (pn * l.length / 100) (l.length - 1)) 0 := by
  have h0 : ¬ l.length = 0 := by omega
  have hle : ¬ l.length ≤ 2 := by omega
  simp only [percentileDuration, if_neg h0, if_neg hle]
  have hcast : ((pn : Int) * (l.length : Int)).tdiv 100 = ((pn * l.length / 100 : Nat) : Int) := by
    rw [← Int.ofNat_mul]
    exact ofNat_tdiv (pn * l.length) 100
  rw [hcast]
  have hnonneg : ¬ ((pn * l.length / 100 : Nat) : Int) < 0 := not_lt.mpr (by positivity)
  rw [if_neg hnonneg]
  rcases Nat.lt_or_ge (pn * l.length / 100) l.length with hlt | hge
  · rw [if_neg (by exact_mod_cast Nat.not_le.mpr hlt)]
    congr 1
    omega
  · rw [if_pos (by exact_mod_cast hge)]
    congr 1
    omega

/-- `percentileDuration` of a non-empty list returns one of its elements,
for every integer percentile. -/
lemma percentileDuration_mem (l : List Duration) (p : Int) (h : l ≠ []) :
    percentileDuration l p ∈ l := by
  have hlen : 0 < l.length := List.length_pos.mpr h
  have getDmem : ∀ n : Nat, n < l.length → l.getD n 0 ∈ l := by
    intro n hn
    rw [List.getD_eq_getElem l 0 hn]
    exact List.getElem_mem hn
  simp only [percentileDuration]
  split_ifs <;>
    first
      | omega
      | exact getDmem 0 hlen
      | exact getDmem 1 (by omega)
      | (apply getDmem; omega)

/-- CLAIM C1: the percentile computation follows the spec's finalization
algorithm: a single sample is returned for every percentile; with exactly
two samples percentile 50 selects the first and percentiles 90 and 99 the
second; with more than two samples and percentile in 50/90/99 the element
at sorted index floor of percentile/100 times N, clamped into bounds, is
returned; in particular P50 of 30ms/50ms/100ms is 50ms and P50 of
150ms/250ms is 150ms while P90 and P99 are 250ms. -/
theorem percentileDuration_follows_spec :
    (∀ (a : Duration) (p : Int), percentileDuration [a] p = a) ∧
    (∀ a b : Duration,
      percentileDuration [a, b] 50 = a ∧ percentileDuration [a, b] 90 = b ∧
      percentileDuration [a, b] 99 = b) ∧
    (∀ (l : List Duration) (p : Int), 2 < l.length → (p = 50 ∨ p = 90 ∨ p = 99) →
      percentileDuration l p = l.getD (min (p.toNat * l.length / 100) (l.length - 1)) 0) ∧
    percentileDuration [30000000, 50000000, 100000000] 50 = 50000000 ∧
    percentileDuration [150000000, 250000000] 50 = 150000000 ∧
    percentileDuration [150000000, 250000000] 90 = 250000000 ∧
    percentileDuration [150000000, 250000000] 99 = 250000000 := by
  refine ⟨fun a p => rfl, fun a b => ⟨rfl, rfl, rfl⟩, ?_, by decide, by decide, by decide, by decide⟩
  intro l p h2 hp
  rcases hp with rfl | rfl | rfl
  · exact percentileDuration_ofNat l 50 h2
  · exact percentileDuration_ofNat l 90 h2
  · exact percentileDuration_ofNat l 99 h2

/-- Witness for C1: the clamped-index clause evaluated on a concrete
four-element list at percentile 90. -/
theorem percentileDuration_follows_spec_witness :
    percentileDuration [10, 20, 30, 40] (90 : Int) = 40 := by
  have h := percentileDuration_follows_spec.2.2.1 [10, 20, 30, 40] 90 (by decide)
    (Or.inr (Or.inl rfl))
  rw [h]
  decide

/-- CLAIM C10: `percentileDuration` is total and in-bounds for every integer
percentile, including negative values and values above 100: it returns 0 on
the empty list and an element of the list otherwise. -/
theorem percentileDuration_total_inbounds :
    ∀ (p : Int) (l : List Duration),
      (l = [] → percentileDuration l p = 0) ∧ (l ≠ [] → percentileDuration l p ∈ l) := by
  intro p l
  refine ⟨?_, ?_⟩
  · rintro rfl
    rfl
  · intro h
    exact percentileDuration_mem l p h

/-- Witness for C10: evaluation at a negative percentile on a non-empty
list, and at an out-of-range percentile on the empty list. -/
theorem percentileDuration_total_inbounds_witness :
    percentileDuration [7, 3, 9] (-5) ∈ ([7, 3, 9] : List Duration) ∧
    percentileDuration ([] : List Duration) 200 = 0 :=
  ⟨(percentileDuration_total_inbounds (-5) [7, 3, 9]).2 (by decide),
   (percentileDuration_total_inbounds 200 []).1 rfl⟩

/-- CLAIM C7: writing three keys through the manifest writer and reloading
yields exactly those keys in order, and loading a manifest with padded and
blank lines yields the trimmed non-blank keys. -/
theorem manifest_round_trip_and_trim :
    LoadManifest (List.foldl AddKey "" ["a/1", "b 2", "c/3"]) = .ok ["a/1", "b 2", "c/3"] ∧
    LoadManifest "\n  key1.txt\nkey2/file.dat\n  \nkey3.zip \n" =
      .ok ["key1.txt", "key2/file.dat", "key3.zip"] :=
  ⟨rfl, rfl⟩

/-- CLAIM C8: with K loaded keys, the n-th sequential GET of worker i uses
key index (i + n) mod K. -/
theorem sequential_key_selection :
    ∀ (i keyCount n : Nat), 0 < keyCount →
      sequentialKeyIndex i keyCount n = (i + n) % keyCount := by
  intro i K n hK
  have hmax : max K 1 = K := Nat.max_eq_left hK
  have hcur : keyIndexBefore i K n = i % K + n := by
    induction n with
    | zero => simp [keyIndexBefore, initialKeyIndex, hmax]
    | succ m ih =>
      simp only [keyIndexBefore, ih]
      omega
  unfold sequentialKeyIndex
  rw [hcur, Nat.mod_add_mod]

/-- Witness for C8: worker 7 with 5 keys picks index (7+4) mod 5 = 1 on its
fifth GET. -/
theorem sequential_key_selection_witness :
    sequentialKeyIndex 7 5 4 = (7 + 4) % 5 :=
  sequential_key_selection 7 5 4 (by decide)

/-- CLAIM C6: a Result with a non-empty error text only bumps the request
counter, the matching per-kind counter and the error counter; every other
field of the statistics — sample lists, byte totals, running min/max and
the derived figures — is unchanged. -/
theorem AddResult_error_result :
    ∀ (s : Stats) (r : Result), r.Error ≠ "" →
      s.AddResult r = { s with
        TotalRequests := s.TotalRequests + 1
        TotalGets := if r.Operation = "GET" then s.TotalGets + 1 else s.TotalGets
        TotalPuts := if r.Operation = "PUT" then s.TotalPuts + 1 else s.TotalPuts
        TotalErrors := s.TotalErrors + 1 } := by
  intro s r h
  by_cases hg : r.Operation = "GET"
  · simp [Stats.AddResult, hg, h]
  · by_cases hp : r.Operation = "PUT" <;> simp [Stats.AddResult, hg, hp, h]

/-- Concrete failed GET result used in witnesses. -/
def failedGet : Result :=
  { Timestamp := 0, Operation := "GET", ObjectKey := "k", TTFB := -1, TTLB := -1,
    BytesDownloaded := 0, BytesUploaded := 0, Error := "connection refused" }

/-- Witness for C6: adding a failed GET to fresh statistics. -/
theorem AddResult_error_result_witness :
    NewStats.AddResult failedGet = { NewStats with
      TotalRequests := NewStats.TotalRequests + 1
      TotalGets := if failedGet.Operation = "GET" then NewStats.TotalGets + 1 else NewStats.TotalGets
      TotalPuts := if failedGet.Operation = "PUT" then NewStats.TotalPuts + 1 else NewStats.TotalPuts
      TotalErrors := NewStats.TotalErrors + 1 } :=
  AddResult_error_result NewStats failedGet (by decide)

/-- Per-step counter bookkeeping of `AddResult` for a GET or PUT result. -/
lemma AddResult_counters (s : Stats) (r : Result)
    (h : r.Operation = "GET" ∨ r.Operation = "PUT") :
    (s.AddResult r).TotalRequests = s.TotalRequests + 1 ∧
    (s.AddResult r).TotalGets + (s.AddResult r).TotalPuts
      = s.TotalGets + s.TotalPuts + 1 ∧
    (s.AddResult r).TotalErrors = s.TotalErrors + (if r.Error = "" then 0 else 1) := by
  rcases h with hg | hp
  · by_cases he : r.Error = "" <;> simp [Stats.AddResult, hg, he] <;> omega
  · by_cases hg : r.Operation = "GET"
    · rw [hg] at hp
      simp at hp
    · by_cases he : r.Error = "" <;> simp [Stats.AddResult, hg, hp, he] <;> omega

/-- Counter bookkeeping over a fold of `AddResult`, relative to an arbitrary
starting state. -/
lemma foldl_AddResult_counters :
    ∀ (rs : List Result) (s : Stats),
      (∀ r ∈ rs, r.Operation = "GET" ∨ r.Operation = "PUT") →
      (rs.foldl Stats.AddResult s).TotalRequests = s.TotalRequests + rs.length ∧
      (rs.foldl Stats.AddResult s).TotalGets + (rs.foldl Stats.AddResult s).TotalPuts
        = s.TotalGets + s.TotalPuts + rs.length ∧
      (rs.foldl Stats.AddResult s).TotalErrors
          + ((rs.filter (fun r => r.Error == "")).length : Int)
        = s.TotalErrors + rs.length := by
  intro rs
  induction rs with
  | nil =>
    intro s _
    simp
  | cons r rest ih =>
    intro s hops
    have hr := hops r (List.mem_cons_self r rest)
    have hrest : ∀ x ∈ rest, x.Operation = "GET" ∨ x.Operation = "PUT" :=
      fun x hx => hops x (List.mem_cons_of_mem r hx)
    obtain ⟨ha1, ha2, ha3⟩ := AddResult_counters s r hr
    obtain ⟨hi1, hi2, hi3⟩ := ih (s.AddResult r) hrest
    rw [List.foldl_cons]
    refine ⟨?_, ?_, ?_⟩
    · rw [hi1, ha1]
      simp
      omega
    · rw [hi2, ha2]
      simp
      omega
    · rw [List.filter_cons]
      by_cases he : r.Error = ""
      · rw [if_pos (by simp [he])]
        rw [if_pos he] at ha3
        simp only [List.length_cons]
        push_cast
        omega
      · rw [if_neg (by simp [he])]
        rw [if_neg he] at ha3
        simp only [List.length_cons]
        push_cast
        omega

/-- CLAIM C3: folding `AddResult` over any sequence of GET/PUT results from
fresh statistics gives TotalRequests = TotalGets + TotalPuts and
TotalRequests = number of successful results + TotalErrors. -/
theorem stats_totals_invariant :
    ∀ rs : List Result,
      (∀ r ∈ rs, r.Operation = "GET" ∨ r.Operation = "PUT") →
      (rs.foldl Stats.AddResult NewStats).TotalRequests
          = (rs.foldl Stats.AddResult NewStats).TotalGets
            + (rs.foldl Stats.AddResult NewStats).TotalPuts ∧
      (rs.foldl Stats.AddResult NewStats).TotalRequests
          = ((rs.filter (fun r => r.Error == "")).length : Int)
            + (rs.foldl Stats.AddResult NewStats).TotalErrors := by
  intro rs h
  obtain ⟨h1, h2, h3⟩ := foldl_AddResult_counters rs NewStats h
  have e1 : NewStats.TotalRequests = 0 := rfl
  have e2 : NewStats.TotalGets = 0 := rfl
  have e3 : NewStats.TotalPuts = 0 := rfl
  have e4 : NewStats.TotalErrors = 0 := rfl
  rw [e1] at h1
  rw [e2, e3] at h2
  rw [e4] at h3
  constructor
  · omega
  · omega

/-- Concrete successful PUT result used in witnesses. -/
def okPut : Result :=
  { Timestamp := 1, Operation := "PUT", ObjectKey := "p", TTFB := -1, TTLB := 150000000,
    BytesDownloaded := 0, BytesUploaded := 1024, Error := "" }

/-- Witness for C3: the totals identity on a concrete mixed run of one
successful PUT and one failed GET. -/
theorem stats_totals_invariant_witness :
    ([okPut, failedGet].foldl Stats.AddResult NewStats).TotalRequests
        = ([okPut, failedGet].foldl Stats.AddResult NewStats).TotalGets
          + ([okPut, failedGet].foldl Stats.AddResult NewStats).TotalPuts ∧
    ([okPut, failedGet].foldl Stats.AddResult NewStats).TotalRequests
        = ((([okPut, failedGet] : List Result).filter (fun r => r.Error == "")).length : Int)
          + ([okPut, failedGet].foldl Stats.AddResult NewStats).TotalErrors :=
  stats_totals_invariant [okPut, failedGet] (by decide)

/-! Claim C5: the executor Result invariant. -/

/-- Concatenating onto a non-empty string stays non-empty. -/
lemma append_ne_empty_left (s t : String) (hs : s ≠ "") : s ++ t ≠ "" := by
  intro h
  rw [String.ext_iff, String.data_append] at h
  simp at h
  exact hs (String.ext_iff.mpr (by simp [h.1]))

/-- The timing fields applicable to a Result's operation kind all carry
measured (non-negative) values: TTFB and TTLB for a GET, TTLB for a PUT
(whose TTFB is never measured). -/
def Result.timingsMeaningful (r : Result) : Prop :=
  if r.Operation = "GET" then 0 ≤ r.TTFB ∧ 0 ≤ r.TTLB else 0 ≤ r.TTLB

instance (r : Result) : Decidable r.timingsMeaningful := by
  unfold Result.timingsMeaningful
  infer_instance

/-- A GET whose header phase succeeded after 5ms and whose body read failed
at 12ms with 100 bytes consumed. -/
def bodyFailEnv : GetEnv :=
  { Timestamp := 0, getErr := none, headerElapsed := 5000000,
    bodyErr := some "connection reset", bodyBytes := 100, bodyElapsed := 12000000 }

/-- COUNTEREXAMPLE to C5: the body-read-failure Result has a non-empty error
text and meaningful timing/byte fields at the same time, so exactly one of
the two never holds for it. -/
theorem executor_result_exclusive_counterexample :
    (performGetOperation "obj" bodyFailEnv).Error ≠ "" ∧
    (performGetOperation "obj" bodyFailEnv).timingsMeaningful ∧
    ¬ (((performGetOperation "obj" bodyFailEnv).Error ≠ "" ∧
          ¬ (performGetOperation "obj" bodyFailEnv).timingsMeaningful) ∨
       (¬ (performGetOperation "obj" bodyFailEnv).Error ≠ "" ∧
          (performGetOperation "obj" bodyFailEnv).timingsMeaningful)) := by
  decide

/-- CLAIM C5 (amended): every executor Result has a non-empty error or
meaningful timings (both on a body-read failure); a failed store call
leaves every timing at the sentinel -1 with a non-empty error; a success
has an empty error and measured timings; each timing field is either the
sentinel -1 or a non-negative measured duration, never another negative
value. Hypotheses: the clock is monotonic (elapsed times non-negative) and
store errors carry non-empty messages. -/
theorem executor_result_invariant :
    (∀ (key : String) (env : GetEnv),
      0 ≤ env.headerElapsed → 0 ≤ env.bodyElapsed →
      (∀ e, env.getErr = some e → e ≠ "") →
      ((performGetOperation key env).Error ≠ "" ∨
        (performGetOperation key env).timingsMeaningful) ∧
      ((performGetOperation key env).TTFB = -1 ∨ 0 ≤ (performGetOperation key env).TTFB) ∧
      ((performGetOperation key env).TTLB = -1 ∨ 0 ≤ (performGetOperation key env).TTLB) ∧
      (env.getErr.isSome →
        (performGetOperation key env).TTFB = -1 ∧
        (performGetOperation key env).TTLB = -1 ∧
        (performGetOperation key env).Error ≠ "") ∧
      (env.getErr = none → env.bodyErr.isSome →
        (performGetOperation key env).Error ≠ "" ∧
        0 ≤ (performGetOperation key env).TTFB ∧
        0 ≤ (performGetOperation key env).TTLB ∧
        (performGetOperation key env).BytesDownloaded = env.bodyBytes) ∧
      (env.getErr = none → env.bodyErr = none →
        (performGetOperation key env).Error = "" ∧
        (performGetOperation key env).timingsMeaningful)) ∧
    (∀ (key : String) (dataLen : Nat) (env : PutEnv),
      0 ≤ env.putElapsed →
      (∀ e, env.putErr = some e → e ≠ "") →
      ((performPutOperation key dataLen env).Error ≠ "" ∨
        (performPutOperation key dataLen env).timingsMeaningful) ∧
      (performPutOperation key dataLen env).TTFB = -1 ∧
      ((performPutOperation key dataLen env).TTLB = -1 ∨
        0 ≤ (performPutOperation key dataLen env).TTLB) ∧
      (env.putErr.isSome →
        (performPutOperation key dataLen env).TTLB = -1 ∧
        (performPutOperation key dataLen env).Error ≠ "") ∧
      (env.putErr = none →
        (performPutOperation key dataLen env).Error = "" ∧
        0 ≤ (performPutOperation key dataLen env).TTLB ∧
        (performPutOperation key dataLen env).BytesUploaded = (dataLen : Int))) := by
  constructor
  · intro key env hh hb herr
    match hge : env.getErr with
    | some e =>
      have hne := herr e hge
      have hr : performGetOperation key env =
          { Timestamp := env.Timestamp, Operation := "GET", ObjectKey := key,
            TTFB := -1, TTLB := -1, BytesDownloaded := 0, BytesUploaded := 0,
            Error := e } := by
        simp [performGetOperation, hge]
      rw [hr]
      exact ⟨Or.inl hne, Or.inl rfl, Or.inl rfl, fun _ => ⟨rfl, rfl, hne⟩,
        fun h5 => absurd h5 (by simp), fun h5 => absurd h5 (by simp)⟩
    | none =>
      match hbe : env.bodyErr with
      | some e =>
        have hne : "body read error: " ++ e ≠ "" :=
          append_ne_empty_left "body read error: " e (by decide)
        have hr : performGetOperation key env =
            { Timestamp := env.Timestamp, Operation := "GET", ObjectKey := key,
              TTFB := env.headerElapsed, TTLB := env.bodyElapsed,
              BytesDownloaded := env.bodyBytes, BytesUploaded := 0,
              Error := "body read error: " ++ e } := by
          simp [performGetOperation, hge, hbe]
        rw [hr]
        exact ⟨Or.inl hne, Or.inr hh, Or.inr hb,
          fun hsome => absurd hsome (by simp),
          fun _ _ => ⟨hne, hh, hb, rfl⟩,
          fun _ h6 => absurd h6 (by simp)⟩
      | none =>
        have hr : performGetOperation key env =
            { Timestamp := env.Timestamp, Operation := "GET", ObjectKey := key,
              TTFB := env.headerElapsed, TTLB := env.bodyElapsed,
              BytesDownloaded := env.bodyBytes, BytesUploaded := 0,
              Error := "" } := by
          simp [performGetOperation, hge, hbe]
        rw [hr]
        have hm : (performGetOperation key env).timingsMeaningful := by
          rw [hr]
          simp [Result.timingsMeaningful]
          exact ⟨hh, hb⟩
        rw [hr] at hm
        exact ⟨Or.inr hm, Or.inr hh, Or.inr hb,
          fun hsome => absurd hsome (by simp),
          fun _ h6 => absurd h6 (by simp),
          fun _ _ => ⟨rfl, hm⟩⟩
  · intro key dataLen env hp herr
    match hpe : env.putErr with
    | some e =>
      have hne := herr e hpe
      have hr : performPutOperation key dataLen env =
          { Timestamp := env.Timestamp, Operation := "PUT", ObjectKey := key,
            TTFB := -1, TTLB := -1, BytesDownloaded := 0, BytesUploaded := 0,
            Error := e } := by
        simp [performPutOperation, hpe]
      rw [hr]
      exact ⟨Or.inl hne, rfl, Or.inl rfl, fun _ => ⟨rfl, hne⟩,
        fun h5 => absurd h5 (by simp)⟩
    | none =>
      have hr : performPutOperation key dataLen env =
          { Timestamp := env.Timestamp, Operation := "PUT", ObjectKey := key,
            TTFB := -1, TTLB := env.putElapsed, BytesDownloaded := 0,
            BytesUploaded := (dataLen : Int), Error := "" } := by
        simp [performPutOperation, hpe]
      have hm : (performPutOperation key dataLen env).timingsMeaningful := by
        rw [hr]
        simp [Result.timingsMeaningful]
        exact hp
      rw [hr] at hm
      rw [hr]
      exact ⟨Or.inr hm, rfl, Or.inr hp,
        fun hsome => absurd hsome (by simp),
        fun _ => ⟨rfl, hp, rfl⟩⟩

/-- A GET whose store call failed outright. -/
def getCallFailEnv : GetEnv :=
  { Timestamp := 0, getErr := some "no such key", headerElapsed := 3000000,
    bodyErr := none, bodyBytes := 0, bodyElapsed := 0 }

/-- Witness for C5 (amended): the invariant instantiated on a concrete
failed GET call. -/
theorem executor_result_invariant_witness :
    (performGetOperation "k" getCallFailEnv).Error ≠ "" ∧
    (performGetOperation "k" getCallFailEnv).TTFB = -1 ∧
    (performGetOperation "k" getCallFailEnv).TTLB = -1 := by
  have h := (executor_result_invariant.1 "k" getCallFailEnv (by decide) (by decide)
    (by intro e he; cases he; decide)).2.2.2.1 (by decide)
  exact ⟨h.2.2, h.1, h.2.1⟩

/-! Claim C2: the RunStressTest error contract. -/

/-- Modelled from the spec words of claim C2: the causes for which the
claim permits a non-nil error — manifest load failure in read or mixed
mode, S3 client construction failure, invalid duration, or a
non-cancellation, non-deadline internal context error. -/
def specAllowedErrorCause (cfg : RunConfig) (env : RunEnv) : Prop :=
  ((cfg.OperationType = "read" ∨ cfg.OperationType = "mixed") ∧
    isError env.loadManifestRes = true) ∨
  isError env.newS3ClientRes = true ∨
  isError env.parseDurationRes = true ∨
  (∃ m, env.runCtxErr = some (ContextErr.other m))

/-- The write-mode run configuration of the counterexample, with manifest
generation enabled. -/
def writeGenCfg : RunConfig :=
  { OperationType := "write", GenerateManifest := true, FileCount := 0,
    Duration := "1m", Concurrency := 1, Randomize := false }

/-- A run whose only failure is the manifest-writer creation, ending by
deadline expiry. -/
def writerFailEnv : RunEnv :=
  { loadManifestRes := .ok [], newManifestWriterRes := .error "permission denied",
    newS3ClientRes := .ok (), parseDurationRes := .ok 60000000000,
    collectedResults := [], startTime := 0, endTime := 0,
    runCtxErr := some .deadlineExceeded }

/-- COUNTEREXAMPLE to C2: with manifest generation enabled in write mode, a
manifest-writer creation failure makes RunStressTest return a non-nil error
although none of the claim's permitted causes holds. -/
theorem RunStressTest_error_contract_counterexample :
    (RunStressTest writeGenCfg writerFailEnv).2.2 ≠ none ∧
    ¬ specAllowedErrorCause writeGenCfg writerFailEnv := by
  constructor
  · decide
  · intro h
    rcases h with ⟨_, hload⟩ | hs3 | hdur | ⟨m, hctx⟩
    · exact absurd hload (by decide)
    · exact absurd hs3 (by decide)
    · exact absurd hdur (by decide)
    · exact absurd hctx (by simp [writerFailEnv])

/-- Setup phase of a run succeeds: the manifest load (read/mixed mode), the
manifest-writer creation (write mode with generation), the S3 client
construction and the duration parse, each where it is reached. -/
def setupSucceeds (cfg : RunConfig) (env : RunEnv) : Prop :=
  ((cfg.OperationType = "read" ∨ cfg.OperationType = "mixed") →
    isError env.loadManifestRes = false) ∧
  ((cfg.OperationType = "write" ∧ cfg.GenerateManifest = true) →
    isError env.newManifestWriterRes = false) ∧
  isError env.newS3ClientRes = false ∧
  isError env.parseDurationRes = false

/-- Error cases of the post-manifest part of a run: a non-nil error there
comes from the S3 client, the duration parse, or an unexpected context
error. -/
lemma RunStressTestRest_error_cases (cfg : RunConfig) (env : RunEnv)
    (h : (RunStressTestRest cfg env).2.2 ≠ none) :
    isError env.newS3ClientRes = true ∨ isError env.parseDurationRes = true ∨
      ∃ m, env.runCtxErr = some (ContextErr.other m) := by
  match hs : env.newS3ClientRes with
  | .error e => exact Or.inl rfl
  | .ok u =>
    match hd : env.parseDurationRes with
    | .error e => exact Or.inr (Or.inl rfl)
    | .ok d =>
      rw [RunStressTestRest, hs, hd] at h
      match hc : env.runCtxErr with
      | some (.other m) => exact Or.inr (Or.inr ⟨m, rfl⟩)
      | none =>
        rw [hc] at h
        simp at h
      | some .canceled =>
        rw [hc] at h
        simp at h
      | some .deadlineExceeded =>
        rw [hc] at h
        simp at h

/-- CLAIM C2 (amended): RunStressTest returns a non-nil error only for a
setup failure preceding worker start — manifest load failure in read or
mixed mode, manifest-writer creation failure in write mode with manifest
generation enabled, S3 client construction failure, invalid duration — or
for an internal-context error other than cancellation and deadline expiry;
and when setup succeeds and the context ends by expiry, cancellation or not
at all, it returns the collected results and the computed statistics with a
nil error. -/
theorem RunStressTest_error_contract :
    ∀ (cfg : RunConfig) (env : RunEnv),
      ((RunStressTest cfg env).2.2 ≠ none →
        specAllowedErrorCause cfg env ∨
        (cfg.OperationType = "write" ∧ cfg.GenerateManifest = true ∧
          isError env.newManifestWriterRes = true)) ∧
      (setupSucceeds cfg env →
        (env.runCtxErr = none ∨ env.runCtxErr = some .canceled ∨
          env.runCtxErr = some .deadlineExceeded) →
        RunStressTest cfg env =
          (some env.collectedResults,
           some ((env.collectedResults.foldl Stats.AddResult NewStats).Calculate
              env.startTime env.endTime),
           none)) := by
  intro cfg env
  constructor
  · intro herr
    by_cases hrm : cfg.OperationType = "read" ∨ cfg.OperationType = "mixed"
    · rw [RunStressTest, if_pos hrm] at herr
      match hload : env.loadManifestRes with
      | .error e =>
        exact Or.inl (Or.inl ⟨hrm, by rw [hload]; rfl⟩)
      | .ok keys0 =>
        rw [hload] at herr
        rcases RunStressTestRest_error_cases cfg env herr with h | h | h
        · exact Or.inl (Or.inr (Or.inl h))
        · exact Or.inl (Or.inr (Or.inr (Or.inl h)))
        · exact Or.inl (Or.inr (Or.inr (Or.inr h)))
    · rw [RunStressTest, if_neg hrm] at herr
      by_cases hwg : cfg.OperationType = "write" ∧ cfg.GenerateManifest = true
      · rw [if_pos hwg] at herr
        match hmw : env.newManifestWriterRes with
        | .error e =>
          exact Or.inr ⟨hwg.1, hwg.2, rfl⟩
        | .ok u =>
          rw [hmw] at herr
          rcases RunStressTestRest_error_cases cfg env herr with h | h | h
          · exact Or.inl (Or.inr (Or.inl h))
          · exact Or.inl (Or.inr (Or.inr (Or.inl h)))
          · exact Or.inl (Or.inr (Or.inr (Or.inr h)))
      · rw [if_neg hwg] at herr
        rcases RunStressTestRest_error_cases cfg env herr with h | h | h
        · exact Or.inl (Or.inr (Or.inl h))
        · exact Or.inl (Or.inr (Or.inr (Or.inl h)))
        · exact Or.inl (Or.inr (Or.inr (Or.inr h)))
  · intro hsetup hctx
    obtain ⟨hload, hmw, hs3, hdur⟩ := hsetup
    have hrest : RunStressTestRest cfg env =
        (some env.collectedResults,
         some ((env.collectedResults.foldl Stats.AddResult NewStats).Calculate
            env.startTime env.endTime),
         none) := by
      match hs : env.newS3ClientRes with
      | .error e => rw [hs] at hs3; exact absurd hs3 (by simp [isError])
      | .ok u =>
        match hd : env.parseDurationRes with
        | .error e => rw [hd] at hdur; exact absurd hdur (by simp [isError])
        | .ok d =>
          rw [RunStressTestRest, hs, hd]
          rcases hctx with h | h | h <;> rw [h]
    by_cases hrm : cfg.OperationType = "read" ∨ cfg.OperationType = "mixed"
    · rw [RunStressTest, if_pos hrm]
      match hl : env.loadManifestRes with
      | .error e =>
        rw [hl] at hload
        exact absurd (hload hrm) (by simp [isError])
      | .ok keys => exact hrest
    · rw [RunStressTest, if_neg hrm]
      by_cases hwg : cfg.OperationType = "write" ∧ cfg.GenerateManifest = true
      · rw [if_pos hwg]
        match hm : env.newManifestWriterRes with
        | .error e =>
          rw [hm] at hmw
          exact absurd (hmw hwg) (by simp [isError])
        | .ok u => exact hrest
      · rw [if_neg hwg]
        exact hrest

/-- A fully successful read-mode run ending at its deadline. -/
def readOkEnv : RunEnv :=
  { loadManifestRes := .ok ["k1", "k2"], newManifestWriterRes := .ok (),
    newS3ClientRes := .ok (), parseDurationRes := .ok 60000000000,
    collectedResults := [okPut, failedGet], startTime := 100, endTime := 200,
    runCtxErr := some .deadlineExceeded }

/-- The read-mode configuration of the C2 witness. -/
def readCfg : RunConfig :=
  { OperationType := "read", GenerateManifest := false, FileCount := 0,
    Duration := "1m", Concurrency := 2, Randomize := false }

/-- Witness for C2 (amended): a graceful deadline-expired read run returns
its results and statistics with a nil error. -/
theorem RunStressTest_error_contract_witness :
    RunStressTest readCfg readOkEnv =
      (some readOkEnv.collectedResults,
       some ((readOkEnv.collectedResults.foldl Stats.AddResult NewStats).Calculate
          readOkEnv.startTime readOkEnv.endTime),
       none) :=
  (RunStressTest_error_contract readCfg readOkEnv).2
    (by refine ⟨fun _ => rfl, fun h => absurd h.1 (by decide), rfl, rfl⟩)
    (Or.inr (Or.inr rfl))

/-! Arithmetic helpers for the average and percentile bounds. -/

/-- A lower bound transfers through truncating division by a positive
divisor. -/
lemma le_tdiv_of_mul_le {n a s : Int} (hn : 0 < n) (h : n * a ≤ s) : a ≤ s.tdiv n := by
  rcases le_or_lt 0 s with hs | hs
  · rw [Int.tdiv_eq_ediv hs hn.le]
    exact (Int.le_ediv_iff_mul_le hn).mpr (by linarith)
  · have hs2 : (0 : Int) ≤ -s := by omega
    have heq : s.tdiv n = -((-s).tdiv n) := by rw [Int.neg_tdiv, neg_neg]
    rw [heq, Int.tdiv_eq_ediv hs2 hn.le, le_neg]
    calc (-s) / n ≤ (n * (-a)) / n := Int.ediv_le_ediv hn (by linarith)
      _ = -a := Int.mul_ediv_cancel_left _ hn.ne'

/-- An upper bound transfers through truncating division by a positive
divisor. -/
lemma tdiv_le_of_le_mul {n b s : Int} (hn : 0 < n) (h : s ≤ n * b) : s.tdiv n ≤ b := by
  rcases le_or_lt 0 s with hs | hs
  · rw [Int.tdiv_eq_ediv hs hn.le]
    calc s / n ≤ (n * b) / n := Int.ediv_le_ediv hn h
      _ = b := Int.mul_ediv_cancel_left _ hn.ne'
  · have hs2 : (0 : Int) ≤ -s := by omega
    have heq : s.tdiv n = -((-s).tdiv n) := by rw [Int.neg_tdiv, neg_neg]
    rw [heq, Int.tdiv_eq_ediv hs2 hn.le, neg_le]
    exact (Int.le_ediv_iff_mul_le hn).mpr (by linarith)

/-- An elementwise upper bound gives a sum bound. -/
lemma list_sum_le (l : List Int) (hi : Int) (h : ∀ x ∈ l, x ≤ hi) :
    l.sum ≤ (l.length : Int) * hi := by
  induction l with
  | nil => simp
  | cons a t ih =>
    have ha := h a (List.mem_cons_self a t)
    have ht := ih (fun x hx => h x (List.mem_cons_of_mem a hx))
    simp only [List.sum_cons, List.length_cons]
    push_cast
    rw [add_mul, one_mul]
    linarith

/-- An elementwise lower bound gives a sum bound. -/
lemma mul_le_list_sum (l : List Int) (lo : Int) (h : ∀ x ∈ l, lo ≤ x) :
    (l.length : Int) * lo ≤ l.sum := by
  induction l with
  | nil => simp
  | cons a t ih =>
    have ha := h a (List.mem_cons_self a t)
    have ht := ih (fun x hx => h x (List.mem_cons_of_mem a hx))
    simp only [List.sum_cons, List.length_cons]
    push_cast
    rw [add_mul, one_mul]
    linarith

/-- The truncating mean of a non-empty list lies between any elementwise
lower and upper bound. -/
lemma averageDuration_bounds (l : List Int) (lo hi : Int) (hne : l ≠ [])
    (hlo : ∀ x ∈ l, lo ≤ x) (hhi : ∀ x ∈ l, x ≤ hi) :
    lo ≤ averageDuration l ∧ averageDuration l ≤ hi := by
  have hlen : 0 < l.length := List.length_pos.mpr hne
  have hn : (0 : Int) < (l.length : Int) := by exact_mod_cast hlen
  unfold averageDuration
  rw [if_neg (by omega)]
  constructor
  · exact le_tdiv_of_mul_le hn (mul_le_list_sum l lo hlo)
  · exact tdiv_le_of_le_mul hn (list_sum_le l hi hhi)

/-- In a sorted list, the element at a smaller index is not larger. -/
lemma sorted_getD_le (l : List Int) (hs : List.Sorted (· ≤ ·) l) (i j : Nat)
    (hij : i ≤ j) (hj : j < l.length) : l.getD i 0 ≤ l.getD j 0 := by
  have hi : i < l.length := Nat.lt_of_le_of_lt hij hj
  rw [List.getD_eq_getElem l 0 hi, List.getD_eq_getElem l 0 hj]
  have hfin : (⟨i, hi⟩ : Fin l.length) ≤ ⟨j, hj⟩ := hij
  have hrel := hs.rel_get_of_le hfin
  simpa using hrel

/-- On a sorted list, `percentileDuration` is monotone in the percentile
over the non-negative percentiles. -/
lemma percentileDuration_mono (l : List Int) (hs : List.Sorted (· ≤ ·) l)
    (p q : Int) (hp : 0 ≤ p) (hpq : p ≤ q) :
    percentileDuration l p ≤ percentileDuration l q := by
  rcases Nat.lt_or_ge 2 l.length with hbig | hsmall
  · have hq : 0 ≤ q := le_trans hp hpq
    rw [show p = ((p.toNat : Nat) : Int) from (Int.toNat_of_nonneg hp).symm,
        show q = ((q.toNat : Nat) : Int) from (Int.toNat_of_nonneg hq).symm,
        percentileDuration_ofNat l p.toNat hbig, percentileDuration_ofNat l q.toNat hbig]
    have htn : p.toNat ≤ q.toNat := by omega
    have hdiv : p.toNat * l.length / 100 ≤ q.toNat * l.length / 100 :=
      Nat.div_le_div_right (Nat.mul_le_mul_right l.length htn)
    apply sorted_getD_le l hs
    · omega
    · omega
  · rcases l with _ | ⟨a, t⟩
    · simp [percentileDuration]
    · rcases t with _ | ⟨b, t2⟩
      · simp [percentileDuration]
      · rcases t2 with _ | ⟨c, t3⟩
        · have hab : a ≤ b := (List.sorted_cons.mp hs).1 b (by simp)
          by_cases hp50 : p ≤ 50
          · by_cases hq50 : q ≤ 50
            · simp [percentileDuration, hp50, hq50]
            · simpa [percentileDuration, hp50, hq50] using hab
          · have hq50 : ¬ q ≤ 50 := fun h => hp50 (le_trans hpq h)
            simp [percentileDuration, hp50, hq50]
        · simp only [List.length_cons] at hsmall
          omega

/-! Invariants maintained by the `AddResult` fold. -/

/-- Case equation of `AddResult` for a successful GET. -/
lemma AddResult_eq_get_ok (s : Stats) (r : Result)
    (he : r.Error = "") (hg : r.Operation = "GET") :
    s.AddResult r = { s with
      TotalRequests := s.TotalRequests + 1
      TotalGets := s.TotalGets + 1
      TotalBytesDown := s.TotalBytesDown + r.BytesDownloaded
      GetTTFBs := s.GetTTFBs ++ [r.TTFB]
      GetTTLBs := s.GetTTLBs ++ [r.TTLB]
      MinGetTTFB := if r.TTFB < s.MinGetTTFB then r.TTFB else s.MinGetTTFB
      MaxGetTTFB := if r.TTFB > s.MaxGetTTFB then r.TTFB else s.MaxGetTTFB
      MinGetTTLB := if r.TTLB < s.MinGetTTLB then r.TTLB else s.MinGetTTLB
      MaxGetTTLB := if r.TTLB > s.MaxGetTTLB then r.TTLB else s.MaxGetTTLB } := by
  simp [Stats.AddResult, he, hg]

/-- Case equation of `AddResult` for a successful PUT. -/
lemma AddResult_eq_put_ok (s : Stats) (r : Result)
    (he : r.Error = "") (hp : r.Operation = "PUT") :
    s.AddResult r = { s with
      TotalRequests := s.TotalRequests + 1
      TotalPuts := s.TotalPuts + 1
      TotalBytesUp := s.TotalBytesUp + r.BytesUploaded
      PutTTLBs := s.PutTTLBs ++ [r.TTLB]
      MinPutTTLB := if r.TTLB < s.MinPutTTLB then r.TTLB else s.MinPutTTLB
      MaxPutTTLB := if r.TTLB > s.MaxPutTTLB then r.TTLB else s.MaxPutTTLB } := by
  have hg : ¬ r.Operation = "GET" := by rw [hp]; simp
  simp [Stats.AddResult, he, hg, hp]

/-- Case equation of `AddResult` for a successful result of any other
operation string. -/
lemma AddResult_eq_other_ok (s : Stats) (r : Result)
    (he : r.Error = "") (hg : ¬ r.Operation = "GET") (hp : ¬ r.Operation = "PUT") :
    s.AddResult r = { s with TotalRequests := s.TotalRequests + 1 } := by
  simp [Stats.AddResult, he, hg, hp]

/-- Case equation of `AddResult` for a failed result. -/
lemma AddResult_eq_err (s : Stats) (r : Result) (he : ¬ r.Error = "") :
    s.AddResult r = { s with
      TotalRequests := s.TotalRequests + 1
      TotalGets := if r.Operation = "GET" then s.TotalGets + 1 else s.TotalGets
      TotalPuts := if r.Operation = "PUT" ∧ ¬ r.Operation = "GET" then s.TotalPuts + 1
        else s.TotalPuts
      TotalErrors := s.TotalErrors + 1 } := by
  by_cases hg : r.Operation = "GET"
  · simp [Stats.AddResult, he, hg]
  · by_cases hp : r.Operation = "PUT" <;> simp [Stats.AddResult, he, hg, hp]

/-- The running min/max fields bound every collected sample, and the two
GET sample lists grow in lock step. -/
def SampleBounds (s : Stats) : Prop :=
  (∀ x ∈ s.GetTTFBs, s.MinGetTTFB ≤ x ∧ x ≤ s.MaxGetTTFB) ∧
  (∀ x ∈ s.GetTTLBs, s.MinGetTTLB ≤ x ∧ x ≤ s.MaxGetTTLB) ∧
  (∀ x ∈ s.PutTTLBs, s.MinPutTTLB ≤ x ∧ x ≤ s.MaxPutTTLB) ∧
  s.GetTTFBs.length = s.GetTTLBs.length

/-- Fresh statistics satisfy the sample bounds vacuously. -/
lemma sampleBounds_NewStats : SampleBounds NewStats := by
  refine ⟨?_, ?_, ?_, rfl⟩ <;>
    · intro x hx
      exact absurd hx (List.not_mem_nil x)

/-- Appending a sample while updating the running min and max keeps the
bounds. -/
lemma bounds_append (l : List Duration) (mn mx a : Duration)
    (h : ∀ x ∈ l, mn ≤ x ∧ x ≤ mx) :
    ∀ x ∈ l ++ [a],
      (if a < mn then a else mn) ≤ x ∧ x ≤ (if a > mx then a else mx) := by
  intro x hx
  rcases List.mem_append.mp hx with hx2 | hx2
  · obtain ⟨h1, h2⟩ := h x hx2
    constructor <;> split_ifs <;> linarith
  · rw [List.mem_singleton.mp hx2]
    constructor <;> split_ifs <;> linarith

/-- `AddResult` preserves the sample bounds. -/
lemma sampleBounds_AddResult (s : Stats) (r : Result) (h : SampleBounds s) :
    SampleBounds (s.AddResult r) := by
  obtain ⟨hfb, hlb, hpb, hlen⟩ := h
  by_cases he : r.Error = ""
  · by_cases hg : r.Operation = "GET"
    · rw [AddResult_eq_get_ok s r he hg]
      refine ⟨bounds_append _ _ _ _ hfb, bounds_append _ _ _ _ hlb, hpb, ?_⟩
      dsimp only
      simp only [List.length_append, List.length_singleton]
      omega
    · by_cases hp : r.Operation = "PUT"
      · rw [AddResult_eq_put_ok s r he hp]
        exact ⟨hfb, hlb, bounds_append _ _ _ _ hpb, hlen⟩
      · rw [AddResult_eq_other_ok s r he hg hp]
        exact ⟨hfb, hlb, hpb, hlen⟩
  · rw [AddResult_eq_err s r he]
    exact ⟨hfb, hlb, hpb, hlen⟩

/-- The sample bounds hold after folding `AddResult` over any result list. -/
lemma sampleBounds_foldl (rs : List Result) :
    SampleBounds (rs.foldl Stats.AddResult NewStats) := by
  suffices h : ∀ s, SampleBounds s → SampleBounds (rs.foldl Stats.AddResult s) from
    h NewStats sampleBounds_NewStats
  induction rs with
  | nil => intro s hsb; simpa using hsb
  | cons r rest ih =>
    intro s hsb
    rw [List.foldl_cons]
    exact ih (s.AddResult r) (sampleBounds_AddResult s r hsb)

/-- The derived figures stay at their zero initialization through the fold,
and an empty sample list keeps its untouched min/max initialization
values. -/
def InitialDerived (s : Stats) : Prop :=
  s.AvgGetTTFB = 0 ∧ s.P50GetTTFB = 0 ∧ s.P90GetTTFB = 0 ∧ s.P99GetTTFB = 0 ∧
  s.AvgGetTTLB = 0 ∧ s.P50GetTTLB = 0 ∧ s.P90GetTTLB = 0 ∧ s.P99GetTTLB = 0 ∧
  s.AvgPutTTLB = 0 ∧ s.P50PutTTLB = 0 ∧ s.P90PutTTLB = 0 ∧ s.P99PutTTLB = 0 ∧
  (s.GetTTFBs = [] → s.MinGetTTFB = largeDuration ∧ s.MaxGetTTFB = -1) ∧
  (s.GetTTLBs = [] → s.MinGetTTLB = largeDuration ∧ s.MaxGetTTLB = -1) ∧
  (s.PutTTLBs = [] → s.MinPutTTLB = largeDuration ∧ s.MaxPutTTLB = -1)

/-- Fresh statistics satisfy the initialization invariant. -/
lemma initialDerived_NewStats : InitialDerived NewStats :=
  ⟨rfl, rfl, rfl, rfl, rfl, rfl, rfl, rfl, rfl, rfl, rfl, rfl,
    fun _ => ⟨rfl, rfl⟩, fun _ => ⟨rfl, rfl⟩, fun _ => ⟨rfl, rfl⟩⟩

/-- `AddResult` preserves the initialization invariant. -/
lemma initialDerived_AddResult (s : Stats) (r : Result) (h : InitialDerived s) :
    InitialDerived (s.AddResult r) := by
  obtain ⟨d1, d2, d3, d4, d5, d6, d7, d8, d9, d10, d11, d12, hfb, hlb, hpb⟩ := h
  by_cases he : r.Error = ""
  · by_cases hg : r.Operation = "GET"
    · rw [AddResult_eq_get_ok s r he hg]
      refine ⟨d1, d2, d3, d4, d5, d6, d7, d8, d9, d10, d11, d12, ?_, ?_, hpb⟩ <;>
        · dsimp only
          intro hc
          exact absurd hc (by simp)
    · by_cases hp : r.Operation = "PUT"
      · rw [AddResult_eq_put_ok s r he hp]
        refine ⟨d1, d2, d3, d4, d5, d6, d7, d8, d9, d10, d11, d12, hfb, hlb, ?_⟩
        dsimp only
        intro hc
        exact absurd hc (by simp)
      · rw [AddResult_eq_other_ok s r he hg hp]
        exact ⟨d1, d2, d3, d4, d5, d6, d7, d8, d9, d10, d11, d12, hfb, hlb, hpb⟩
  · rw [AddResult_eq_err s r he]
    exact ⟨d1, d2, d3, d4, d5, d6, d7, d8, d9, d10, d11, d12, hfb, hlb, hpb⟩

/-- The initialization invariant holds after the fold. -/
lemma initialDerived_foldl (rs : List Result) :
    InitialDerived (rs.foldl Stats.AddResult NewStats) := by
  suffices h : ∀ s, InitialDerived s → InitialDerived (rs.foldl Stats.AddResult s) from
    h NewStats initialDerived_NewStats
  induction rs with
  | nil => intro s hsb; simpa using hsb
  | cons r rest ih =>
    intro s hsb
    rw [List.foldl_cons]
    exact ih (s.AddResult r) (initialDerived_AddResult s r hsb)

/-- The PUT sample list only grows on a successful PUT. -/
lemma AddResult_PutTTLBs (s : Stats) (r : Result) :
    (s.AddResult r).PutTTLBs =
      if r.Operation = "PUT" ∧ r.Error = "" then s.PutTTLBs ++ [r.TTLB]
      else s.PutTTLBs := by
  by_cases he : r.Error = ""
  · by_cases hg : r.Operation = "GET"
    · have hp : ¬ r.Operation = "PUT" := by rw [hg]; simp
      rw [AddResult_eq_get_ok s r he hg]
      dsimp only
      rw [if_neg (fun hc => hp hc.1)]
    · by_cases hp : r.Operation = "PUT"
      · rw [AddResult_eq_put_ok s r he hp]
        dsimp only
        rw [if_pos ⟨hp, he⟩]
      · rw [AddResult_eq_other_ok s r he hg hp]
        dsimp only
        rw [if_neg (fun hc => hp hc.1)]
  · rw [AddResult_eq_err s r he]
    dsimp only
    rw [if_neg (fun hc => he hc.2)]

/-- Without a successful PUT in the input, the PUT sample list stays
empty. -/
lemma foldl_PutTTLBs_empty (rs : List Result) :
    ∀ s : Stats, (∀ r ∈ rs, r.Operation = "PUT" → r.Error ≠ "") →
      s.PutTTLBs = [] → (rs.foldl Stats.AddResult s).PutTTLBs = [] := by
  induction rs with
  | nil => intro s _ h0; simpa using h0
  | cons r rest ih =>
    intro s h h0
    rw [List.foldl_cons]
    refine ih (s.AddResult r) (fun x hx => h x (List.mem_cons_of_mem r hx)) ?_
    rw [AddResult_PutTTLBs]
    rw [if_neg]
    · exact h0
    · rintro ⟨hput, hok⟩
      exact h r (List.mem_cons_self r rest) hput hok

/-! Stage lemmas for `Stats.Calculate`. -/

/-- With TTFB samples present, the first reset block does nothing. -/
lemma resetEmptyGetTTFB_of_ne (s : Stats) (h : s.GetTTFBs ≠ []) :
    resetEmptyGetTTFB s = s := by
  simp only [resetEmptyGetTTFB]
  rw [if_neg (by simp [List.length_eq_zero, h])]

/-- With TTLB samples present, the second reset block does nothing. -/
lemma resetEmptyGetTTLB_of_ne (s : Stats) (h : s.GetTTLBs ≠ []) :
    resetEmptyGetTTLB s = s := by
  simp only [resetEmptyGetTTLB]
  rw [if_neg (by simp [List.length_eq_zero, h])]

/-- With PUT samples present, the third reset block does nothing. -/
lemma resetEmptyPutTTLB_of_ne (s : Stats) (h : s.PutTTLBs ≠ []) :
    resetEmptyPutTTLB s = s := by
  simp only [resetEmptyPutTTLB]
  rw [if_neg (by simp [List.length_eq_zero, h])]

/-- On an empty TTFB sample list with untouched initialization values, the
first reset block zeroes MinGetTTFB and MaxGetTTFB. -/
lemma resetEmptyGetTTFB_of_empty (s : Stats) (hl : s.GetTTFBs = [])
    (hmin : s.MinGetTTFB = largeDuration) (hmax : s.MaxGetTTFB = -1) :
    resetEmptyGetTTFB s = { s with MinGetTTFB := 0, MaxGetTTFB := 0 } := by
  simp only [resetEmptyGetTTFB]
  rw [if_pos (by simp [hl])]
  have h1 : (if s.MinGetTTFB = largeDuration then { s with MinGetTTFB := 0 } else s)
      = { s with MinGetTTFB := 0 } := if_pos hmin
  rw [h1, if_pos (show ({ s with MinGetTTFB := 0 } : Stats).MaxGetTTFB = -1 from hmax)]

/-- On an empty TTLB sample list with untouched initialization values, the
second reset block zeroes MinGetTTLB and MaxGetTTLB. -/
lemma resetEmptyGetTTLB_of_empty (s : Stats) (hl : s.GetTTLBs = [])
    (hmin : s.MinGetTTLB = largeDuration) (hmax : s.MaxGetTTLB = -1) :
    resetEmptyGetTTLB s = { s with MinGetTTLB := 0, MaxGetTTLB := 0 } := by
  simp only [resetEmptyGetTTLB]
  rw [if_pos (by simp [hl])]
  have h1 : (if s.MinGetTTLB = largeDuration then { s with MinGetTTLB := 0 } else s)
      = { s with MinGetTTLB := 0 } := if_pos hmin
  rw [h1, if_pos (show ({ s with MinGetTTLB := 0 } : Stats).MaxGetTTLB = -1 from hmax)]

/-- On an empty PUT sample list with untouched initialization values, the
third reset block zeroes MinPutTTLB and MaxPutTTLB. -/
lemma resetEmptyPutTTLB_of_empty (s : Stats) (hl : s.PutTTLBs = [])
    (hmin : s.MinPutTTLB = largeDuration) (hmax : s.MaxPutTTLB = -1) :
    resetEmptyPutTTLB s = { s with MinPutTTLB := 0, MaxPutTTLB := 0 } := by
  simp only [resetEmptyPutTTLB]
  rw [if_pos (by simp [hl])]
  have h1 : (if s.MinPutTTLB = largeDuration then { s with MinPutTTLB := 0 } else s)
      = { s with MinPutTTLB := 0 } := if_pos hmin
  rw [h1, if_pos (show ({ s with MinPutTTLB := 0 } : Stats).MaxPutTTLB = -1 from hmax)]

/-- With TTFB samples present, the GET block sorts and derives figures. -/
lemma computeGetStats_of_pos (s : Stats) (h : s.GetTTFBs ≠ []) :
    computeGetStats s = { s with
      GetTTFBs := sortDurations s.GetTTFBs
      GetTTLBs := sortDurations s.GetTTLBs
      AvgGetTTFB := averageDuration (sortDurations s.GetTTFBs)
      AvgGetTTLB := averageDuration (sortDurations s.GetTTLBs)
      P50GetTTFB := percentileDuration (sortDurations s.GetTTFBs) 50
      P90GetTTFB := percentileDuration (sortDurations s.GetTTFBs) 90
      P99GetTTFB := percentileDuration (sortDurations s.GetTTFBs) 99
      P50GetTTLB := percentileDuration (sortDurations s.GetTTLBs) 50
      P90GetTTLB := percentileDuration (sortDurations s.GetTTLBs) 90
      P99GetTTLB := percentileDuration (sortDurations s.GetTTLBs) 99 } := by
  simp only [computeGetStats]
  rw [if_pos (List.length_pos.mpr h)]

/-- Without TTFB samples, the GET block does nothing. -/
lemma computeGetStats_of_empty (s : Stats) (h : s.GetTTFBs = []) :
    computeGetStats s = s := by
  simp only [computeGetStats]
  rw [if_neg (by simp [h])]

/-- With PUT samples present, the PUT block sorts and derives figures. -/
lemma computePutStats_of_pos (s : Stats) (h : s.PutTTLBs ≠ []) :
    computePutStats s = { s with
      PutTTLBs := sortDurations s.PutTTLBs
      AvgPutTTLB := averageDuration (sortDurations s.PutTTLBs)
      P50PutTTLB := percentileDuration (sortDurations s.PutTTLBs) 50
      P90PutTTLB := percentileDuration (sortDurations s.PutTTLBs) 90
      P99PutTTLB := percentileDuration (sortDurations s.PutTTLBs) 99 } := by
  simp only [computePutStats]
  rw [if_pos (List.length_pos.mpr h)]

/-- Without PUT samples, the PUT block does nothing. -/
lemma computePutStats_of_empty (s : Stats) (h : s.PutTTLBs = []) :
    computePutStats s = s := by
  simp only [computePutStats]
  rw [if_neg (by simp [h])]

/-- The first reset block only touches MinGetTTFB and MaxGetTTFB. -/
lemma resetEmptyGetTTFB_keeps (s : Stats) :
    (resetEmptyGetTTFB s).GetTTFBs = s.GetTTFBs ∧
    (resetEmptyGetTTFB s).GetTTLBs = s.GetTTLBs ∧
    (resetEmptyGetTTFB s).PutTTLBs = s.PutTTLBs ∧
    (resetEmptyGetTTFB s).MinGetTTLB = s.MinGetTTLB ∧
    (resetEmptyGetTTFB s).MaxGetTTLB = s.MaxGetTTLB ∧
    (resetEmptyGetTTFB s).MinPutTTLB = s.MinPutTTLB ∧
    (resetEmptyGetTTFB s).MaxPutTTLB = s.MaxPutTTLB ∧
    (resetEmptyGetTTFB s).AvgGetTTFB = s.AvgGetTTFB ∧
    (resetEmptyGetTTFB s).P50GetTTFB = s.P50GetTTFB ∧
    (resetEmptyGetTTFB s).P90GetTTFB = s.P90GetTTFB ∧
    (resetEmptyGetTTFB s).P99GetTTFB = s.P99GetTTFB ∧
    (resetEmptyGetTTFB s).AvgGetTTLB = s.AvgGetTTLB ∧
    (resetEmptyGetTTFB s).P50GetTTLB = s.P50GetTTLB ∧
    (resetEmptyGetTTFB s).P90GetTTLB = s.P90GetTTLB ∧
    (resetEmptyGetTTFB s).P99GetTTLB = s.P99GetTTLB ∧
    (resetEmptyGetTTFB s).AvgPutTTLB = s.AvgPutTTLB ∧
    (resetEmptyGetTTFB s).P50PutTTLB = s.P50PutTTLB ∧
    (resetEmptyGetTTFB s).P90PutTTLB = s.P90PutTTLB ∧
    (resetEmptyGetTTFB s).P99PutTTLB = s.P99PutTTLB := by
  simp only [resetEmptyGetTTFB]
  split_ifs <;> simp

/-- The second reset block only touches MinGetTTLB and MaxGetTTLB. -/
lemma resetEmptyGetTTLB_keeps (s : Stats) :
    (resetEmptyGetTTLB s).GetTTFBs = s.GetTTFBs ∧
    (resetEmptyGetTTLB s).GetTTLBs = s.GetTTLBs ∧
    (resetEmptyGetTTLB s).PutTTLBs = s.PutTTLBs ∧
    (resetEmptyGetTTLB s).MinGetTTFB = s.MinGetTTFB ∧
    (resetEmptyGetTTLB s).MaxGetTTFB = s.MaxGetTTFB ∧
    (resetEmptyGetTTLB s).MinPutTTLB = s.MinPutTTLB ∧
    (resetEmptyGetTTLB s).MaxPutTTLB = s.MaxPutTTLB ∧
    (resetEmptyGetTTLB s).AvgGetTTFB = s.AvgGetTTFB ∧
    (resetEmptyGetTTLB s).P50GetTTFB = s.P50GetTTFB ∧
    (resetEmptyGetTTLB s).P90GetTTFB = s.P90GetTTFB ∧
    (resetEmptyGetTTLB s).P99GetTTFB = s.P99GetTTFB ∧
    (resetEmptyGetTTLB s).AvgGetTTLB = s.AvgGetTTLB ∧
    (resetEmptyGetTTLB s).P50GetTTLB = s.P50GetTTLB ∧
    (resetEmptyGetTTLB s).P90GetTTLB = s.P90GetTTLB ∧
    (resetEmptyGetTTLB s).P99GetTTLB = s.P99GetTTLB ∧
    (resetEmptyGetTTLB s).AvgPutTTLB = s.AvgPutTTLB ∧
    (resetEmptyGetTTLB s).P50PutTTLB = s.P50PutTTLB ∧
    (resetEmptyGetTTLB s).P90PutTTLB = s.P90PutTTLB ∧
    (resetEmptyGetTTLB s).P99PutTTLB = s.P99PutTTLB := by
  simp only [resetEmptyGetTTLB]
  split_ifs <;> simp

/-- The third reset block only touches MinPutTTLB and MaxPutTTLB. -/
lemma resetEmptyPutTTLB_keeps (s : Stats) :
    (resetEmptyPutTTLB s).GetTTFBs = s.GetTTFBs ∧
    (resetEmptyPutTTLB s).GetTTLBs = s.GetTTLBs ∧
    (resetEmptyPutTTLB s).PutTTLBs = s.PutTTLBs ∧
    (resetEmptyPutTTLB s).MinGetTTFB = s.MinGetTTFB ∧
    (resetEmptyPutTTLB s).MaxGetTTFB = s.MaxGetTTFB ∧
    (resetEmptyPutTTLB s).MinGetTTLB = s.MinGetTTLB ∧
    (resetEmptyPutTTLB s).MaxGetTTLB = s.MaxGetTTLB ∧
    (resetEmptyPutTTLB s).AvgGetTTFB = s.AvgGetTTFB ∧
    (resetEmptyPutTTLB s).P50GetTTFB = s.P50GetTTFB ∧
    (resetEmptyPutTTLB s).P90GetTTFB = s.P90GetTTFB ∧
    (resetEmptyPutTTLB s).P99GetTTFB = s.P99GetTTFB ∧
    (resetEmptyPutTTLB s).AvgGetTTLB = s.AvgGetTTLB ∧
    (resetEmptyPutTTLB s).P50GetTTLB = s.P50GetTTLB ∧
    (resetEmptyPutTTLB s).P90GetTTLB = s.P90GetTTLB ∧
    (resetEmptyPutTTLB s).P99GetTTLB = s.P99GetTTLB ∧
    (resetEmptyPutTTLB s).AvgPutTTLB = s.AvgPutTTLB ∧
    (resetEmptyPutTTLB s).P50PutTTLB = s.P50PutTTLB ∧
    (resetEmptyPutTTLB s).P90PutTTLB = s.P90PutTTLB ∧
    (resetEmptyPutTTLB s).P99PutTTLB = s.P99PutTTLB := by
  simp only [resetEmptyPutTTLB]
  split_ifs <;> simp

/-- The GET block touches neither the PUT fields nor the GET min/max. -/
lemma computeGetStats_keeps (s : Stats) :
    (computeGetStats s).PutTTLBs = s.PutTTLBs ∧
    (computeGetStats s).MinGetTTFB = s.MinGetTTFB ∧
    (computeGetStats s).MaxGetTTFB = s.MaxGetTTFB ∧
    (computeGetStats s).MinGetTTLB = s.MinGetTTLB ∧
    (computeGetStats s).MaxGetTTLB = s.MaxGetTTLB ∧
    (computeGetStats s).MinPutTTLB = s.MinPutTTLB ∧
    (computeGetStats s).MaxPutTTLB = s.MaxPutTTLB ∧
    (computeGetStats s).AvgPutTTLB = s.AvgPutTTLB ∧
    (computeGetStats s).P50PutTTLB = s.P50PutTTLB ∧
    (computeGetStats s).P90PutTTLB = s.P90PutTTLB ∧
    (computeGetStats s).P99PutTTLB = s.P99PutTTLB := by
  simp only [computeGetStats]
  split_ifs <;> simp

/-- The PUT block touches neither the GET fields nor the PUT min/max. -/
lemma computePutStats_keeps (s : Stats) :
    (computePutStats s).GetTTFBs = s.GetTTFBs ∧
    (computePutStats s).GetTTLBs = s.GetTTLBs ∧
    (computePutStats s).MinGetTTFB = s.MinGetTTFB ∧
    (computePutStats s).MaxGetTTFB = s.MaxGetTTFB ∧
    (computePutStats s).MinGetTTLB = s.MinGetTTLB ∧
    (computePutStats s).MaxGetTTLB = s.MaxGetTTLB ∧
    (computePutStats s).AvgGetTTFB = s.AvgGetTTFB ∧
    (computePutStats s).P50GetTTFB = s.P50GetTTFB ∧
    (computePutStats s).P90GetTTFB = s.P90GetTTFB ∧
    (computePutStats s).P99GetTTFB = s.P99GetTTFB ∧
    (computePutStats s).AvgGetTTLB = s.AvgGetTTLB ∧
    (computePutStats s).P50GetTTLB = s.P50GetTTLB ∧
    (computePutStats s).P90GetTTLB = s.P90GetTTLB ∧
    (computePutStats s).P99GetTTLB = s.P99GetTTLB ∧
    (computePutStats s).MinPutTTLB = s.MinPutTTLB ∧
    (computePutStats s).MaxPutTTLB = s.MaxPutTTLB := by
  simp only [computePutStats]
  split_ifs <;> simp

/-- Characterization of the PUT figures of `Calculate` when PUT samples
exist. -/
lemma Calculate_put_char (t : Stats) (st ed : Int) (h : t.PutTTLBs ≠ []) :
    (t.Calculate st ed).MinPutTTLB = t.MinPutTTLB ∧
    (t.Calculate st ed).MaxPutTTLB = t.MaxPutTTLB ∧
    (t.Calculate st ed).AvgPutTTLB = averageDuration (sortDurations t.PutTTLBs) ∧
    (t.Calculate st ed).P50PutTTLB = percentileDuration (sortDurations t.PutTTLBs) 50 ∧
    (t.Calculate st ed).P90PutTTLB = percentileDuration (sortDurations t.PutTTLBs) 90 ∧
    (t.Calculate st ed).P99PutTTLB = percentileDuration (sortDurations t.PutTTLBs) 99 := by
  simp only [Stats.Calculate]
  set t0 : Stats := { t with startTime := st, endTime := ed, actualDuration := ed - st }
    with ht0
  obtain ⟨a1, a2, a3, a4, a5, a6, a7, a8, a9, a10, a11, a12, a13, a14, a15, a16, a17,
    a18, a19⟩ := resetEmptyGetTTFB_keeps t0
  set r1 := resetEmptyGetTTFB t0 with hr1
  obtain ⟨b1, b2, b3, b4, b5, b6, b7, b8, b9, b10, b11, b12, b13, b14, b15, b16, b17,
    b18, b19⟩ := resetEmptyGetTTLB_keeps r1
  set r2 := resetEmptyGetTTLB r1 with hr2
  have hput2 : r2.PutTTLBs = t.PutTTLBs := by rw [b3, a3]
  have h3 : resetEmptyPutTTLB r2 = r2 := resetEmptyPutTTLB_of_ne r2 (by rw [hput2]; exact h)
  rw [h3]
  obtain ⟨c1, c2, c3, c4, c5, c6, c7, c8, c9, c10, c11⟩ := computeGetStats_keeps r2
  set r4 := computeGetStats r2 with hr4
  have hput4 : r4.PutTTLBs = t.PutTTLBs := by rw [c1, hput2]
  rw [computePutStats_of_pos r4 (by rw [hput4]; exact h)]
  dsimp only
  rw [hput4, c6, c7]
  rw [show r2.MinPutTTLB = t.MinPutTTLB from by rw [b6, a6],
      show r2.MaxPutTTLB = t.MaxPutTTLB from by rw [b7, a7]]
  exact ⟨rfl, rfl, rfl, rfl, rfl, rfl⟩

/-- Characterization of the GET figures of `Calculate` when GET samples
exist. -/
lemma Calculate_get_char (t : Stats) (st ed : Int)
    (hfb : t.GetTTFBs ≠ []) (hlb : t.GetTTLBs ≠ []) :
    (t.Calculate st ed).MinGetTTFB = t.MinGetTTFB ∧
    (t.Calculate st ed).MaxGetTTFB = t.MaxGetTTFB ∧
    (t.Calculate st ed).MinGetTTLB = t.MinGetTTLB ∧
    (t.Calculate st ed).MaxGetTTLB = t.MaxGetTTLB ∧
    (t.Calculate st ed).AvgGetTTFB = averageDuration (sortDurations t.GetTTFBs) ∧
    (t.Calculate st ed).P50GetTTFB = percentileDuration (sortDurations t.GetTTFBs) 50 ∧
    (t.Calculate st ed).P90GetTTFB = percentileDuration (sortDurations t.GetTTFBs) 90 ∧
    (t.Calculate st ed).P99GetTTFB = percentileDuration (sortDurations t.GetTTFBs) 99 ∧
    (t.Calculate st ed).AvgGetTTLB = averageDuration (sortDurations t.GetTTLBs) ∧
    (t.Calculate st ed).P50GetTTLB = percentileDuration (sortDurations t.GetTTLBs) 50 ∧
    (t.Calculate st ed).P90GetTTLB = percentileDuration (sortDurations t.GetTTLBs) 90 ∧
    (t.Calculate st ed).P99GetTTLB = percentileDuration (sortDurations t.GetTTLBs) 99 := by
  simp only [Stats.Calculate]
  set t0 : Stats := { t with startTime := st, endTime := ed, actualDuration := ed - st }
    with ht0
  have h1 : resetEmptyGetTTFB t0 = t0 := resetEmptyGetTTFB_of_ne t0 hfb
  rw [h1]
  have h2 : resetEmptyGetTTLB t0 = t0 := resetEmptyGetTTLB_of_ne t0 hlb
  rw [h2]
  obtain ⟨p1, p2, p3, p4, p5, p6, p7, p8, p9, p10, p11, p12, p13, p14, p15, p16, p17,
    p18, p19⟩ := resetEmptyPutTTLB_keeps t0
  set r3 := resetEmptyPutTTLB t0 with hr3
  have hfb3 : r3.GetTTFBs = t.GetTTFBs := by rw [p1]
  have hlb3 : r3.GetTTLBs = t.GetTTLBs := by rw [p2]
  rw [computeGetStats_of_pos r3 (by rw [hfb3]; exact hfb)]
  obtain ⟨q1, q2, q3, q4, q5, q6, q7, q8, q9, q10, q11, q12, q13, q14, q15, q16⟩ :=
    computePutStats_keeps { r3 with
      GetTTFBs := sortDurations r3.GetTTFBs
      GetTTLBs := sortDurations r3.GetTTLBs
      AvgGetTTFB := averageDuration (sortDurations r3.GetTTFBs)
      AvgGetTTLB := averageDuration (sortDurations r3.GetTTLBs)
      P50GetTTFB := percentileDuration (sortDurations r3.GetTTFBs) 50
      P90GetTTFB := percentileDuration (sortDurations r3.GetTTFBs) 90
      P99GetTTFB := percentileDuration (sortDurations r3.GetTTFBs) 99
      P50GetTTLB := percentileDuration (sortDurations r3.GetTTLBs) 50
      P90GetTTLB := percentileDuration (sortDurations r3.GetTTLBs) 90
      P99GetTTLB := percentileDuration (sortDurations r3.GetTTLBs) 99 }
  rw [q3, q4, q5, q6, q7, q8, q9, q10, q11, q12, q13, q14]
  dsimp only
  rw [hfb3, hlb3, p4, p5, p6, p7]
  exact ⟨rfl, rfl, rfl, rfl, rfl, rfl, rfl, rfl, rfl, rfl, rfl, rfl⟩

/-- When no PUT sample was collected and the invariants of the fold hold,
every PUT figure of `Calculate` is zero. -/
lemma Calculate_put_zero (t : Stats) (st ed : Int) (hl : t.PutTTLBs = [])
    (hmin : t.MinPutTTLB = largeDuration) (hmax : t.MaxPutTTLB = -1)
    (havg : t.AvgPutTTLB = 0) (h50 : t.P50PutTTLB = 0) (h90 : t.P90PutTTLB = 0)
    (h99 : t.P99PutTTLB = 0) :
    (t.Calculate st ed).MinPutTTLB = 0 ∧ (t.Calculate st ed).MaxPutTTLB = 0 ∧
    (t.Calculate st ed).AvgPutTTLB = 0 ∧ (t.Calculate st ed).P50PutTTLB = 0 ∧
    (t.Calculate st ed).P90PutTTLB = 0 ∧ (t.Calculate st ed).P99PutTTLB = 0 := by
  simp only [Stats.Calculate]
  set t0 : Stats := { t with startTime := st, endTime := ed, actualDuration := ed - st }
    with ht0
  obtain ⟨a1, a2, a3, a4, a5, a6, a7, a8, a9, a10, a11, a12, a13, a14, a15, a16, a17,
    a18, a19⟩ := resetEmptyGetTTFB_keeps t0
  set r1 := resetEmptyGetTTFB t0 with hr1
  obtain ⟨b1, b2, b3, b4, b5, b6, b7, b8, b9, b10, b11, b12, b13, b14, b15, b16, b17,
    b18, b19⟩ := resetEmptyGetTTLB_keeps r1
  set r2 := resetEmptyGetTTLB r1 with hr2
  have hput2 : r2.PutTTLBs = [] := by rw [b3, a3]; exact hl
  have hmin2 : r2.MinPutTTLB = largeDuration := by rw [b6, a6]; exact hmin
  have hmax2 : r2.MaxPutTTLB = -1 := by rw [b7, a7]; exact hmax
  rw [resetEmptyPutTTLB_of_empty r2 hput2 hmin2 hmax2]
  obtain ⟨c1, c2, c3, c4, c5, c6, c7, c8, c9, c10, c11⟩ :=
    computeGetStats_keeps { r2 with MinPutTTLB := 0, MaxPutTTLB := 0 }
  set r4 := computeGetStats { r2 with MinPutTTLB := 0, MaxPutTTLB := 0 } with hr4
  have hput4 : r4.PutTTLBs = [] := by rw [c1]; exact hput2
  rw [computePutStats_of_empty r4 hput4]
  refine ⟨by rw [c6], by rw [c7], ?_, ?_, ?_, ?_⟩
  · rw [c8]
    dsimp only
    rw [b16, a16]
    exact havg
  · rw [c9]
    dsimp only
    rw [b17, a17]
    exact h50
  · rw [c10]
    dsimp only
    rw [b18, a18]
    exact h90
  · rw [c11]
    dsimp only
    rw [b19, a19]
    exact h99

/-- When no GET sample was collected and the invariants of the fold hold,
every GET figure of `Calculate` is zero. -/
lemma Calculate_get_zero (t : Stats) (st ed : Int)
    (hfb : t.GetTTFBs = []) (hlb : t.GetTTLBs = [])
    (hminfb : t.MinGetTTFB = largeDuration) (hmaxfb : t.MaxGetTTFB = -1)
    (hminlb : t.MinGetTTLB = largeDuration) (hmaxlb : t.MaxGetTTLB = -1)
    (havgfb : t.AvgGetTTFB = 0) (h50fb : t.P50GetTTFB = 0)
    (h90fb : t.P90GetTTFB = 0) (h99fb : t.P99GetTTFB = 0)
    (havglb : t.AvgGetTTLB = 0) (h50lb : t.P50GetTTLB = 0)
    (h90lb : t.P90GetTTLB = 0) (h99lb : t.P99GetTTLB = 0) :
    (t.Calculate st ed).MinGetTTFB = 0 ∧ (t.Calculate st ed).MaxGetTTFB = 0 ∧
    (t.Calculate st ed).AvgGetTTFB = 0 ∧ (t.Calculate st ed).P50GetTTFB = 0 ∧
    (t.Calculate st ed).P90GetTTFB = 0 ∧ (t.Calculate st ed).P99GetTTFB = 0 ∧
    (t.Calculate st ed).MinGetTTLB = 0 ∧ (t.Calculate st ed).MaxGetTTLB = 0 ∧
    (t.Calculate st ed).AvgGetTTLB = 0 ∧ (t.Calculate st ed).P50GetTTLB = 0 ∧
    (t.Calculate st ed).P90GetTTLB = 0 ∧ (t.Calculate st ed).P99GetTTLB = 0 := by
  simp only [Stats.Calculate]
  set t0 : Stats := { t with startTime := st, endTime := ed, actualDuration := ed - st }
    with ht0
  rw [resetEmptyGetTTFB_of_empty t0 hfb hminfb hmaxfb]
  set u1 : Stats := { t0 with MinGetTTFB := 0, MaxGetTTFB := 0 } with hu1
  rw [resetEmptyGetTTLB_of_empty u1 hlb hminlb hmaxlb]
  set u2 : Stats := { u1 with MinGetTTLB := 0, MaxGetTTLB := 0 } with hu2
  obtain ⟨p1, p2, p3, p4, p5, p6, p7, p8, p9, p10, p11, p12, p13, p14, p15, p16, p17,
    p18, p19⟩ := resetEmptyPutTTLB_keeps u2
  set r3 := resetEmptyPutTTLB u2 with hr3
  rw [computeGetStats_of_empty r3 (by rw [p1]; exact hfb)]
  obtain ⟨q1, q2, q3, q4, q5, q6, q7, q8, q9, q10, q11, q12, q13, q14, q15, q16⟩ :=
    computePutStats_keeps r3
  refine ⟨?_, ?_, ?_, ?_, ?_, ?_, ?_, ?_, ?_, ?_, ?_, ?_⟩
  · rw [q3, p4]
  · rw [q4, p5]
  · rw [q7, p8]
    exact havgfb
  · rw [q8, p9]
    exact h50fb
  · rw [q9, p10]
    exact h90fb
  · rw [q10, p11]
    exact h99fb
  · rw [q5, p6]
  · rw [q6, p7]
  · rw [q11, p12]
    exact havglb
  · rw [q12, p13]
    exact h50lb
  · rw [q13, p14]
    exact h90lb
  · rw [q14, p15]
    exact h99lb

/-- The derived figures of one kind, computed from a non-empty bounded
sample list, are ordered. -/
lemma figures_ordered_of_bounds (l : List Duration) (mn mx : Duration) (hne : l ≠ [])
    (hb : ∀ x ∈ l, mn ≤ x ∧ x ≤ mx) :
    percentileDuration (sortDurations l) 50 ≤ percentileDuration (sortDurations l) 90 ∧
    percentileDuration (sortDurations l) 90 ≤ percentileDuration (sortDurations l) 99 ∧
    percentileDuration (sortDurations l) 99 ≤ mx ∧
    mn ≤ averageDuration (sortDurations l) ∧
    averageDuration (sortDurations l) ≤ mx := by
  have hsort : List.Sorted (· ≤ ·) (sortDurations l) := List.sorted_insertionSort _ l
  have hperm : (sortDurations l).Perm l := List.perm_insertionSort _ l
  have hb2 : ∀ x ∈ sortDurations l, mn ≤ x ∧ x ≤ mx :=
    fun x hx => hb x (hperm.mem_iff.mp hx)
  have hne2 : sortDurations l ≠ [] := by
    intro hc
    have hl := hperm.length_eq
    rw [hc] at hl
    simp at hl
    exact hne (List.length_eq_zero.mp hl.symm)
  obtain ⟨havg1, havg2⟩ := averageDuration_bounds (sortDurations l) mn mx hne2
    (fun x hx => (hb2 x hx).1) (fun x hx => (hb2 x hx).2)
  refine ⟨percentileDuration_mono _ hsort 50 90 (by norm_num) (by norm_num),
          percentileDuration_mono _ hsort 90 99 (by norm_num) (by norm_num),
          ?_, havg1, havg2⟩
  exact (hb2 _ (percentileDuration_mem (sortDurations l) 99 hne2)).2

/-- Ordering of the six derived figures of one operation kind:
P50 ≤ P90 ≤ P99 ≤ Max and Min ≤ Avg ≤ Max. -/
def KindFiguresOrdered (p50 p90 p99 mn avg mx : Duration) : Prop :=
  p50 ≤ p90 ∧ p90 ≤ p99 ∧ p99 ≤ mx ∧ mn ≤ avg ∧ avg ≤ mx

/-- CLAIM C4: after folding any sequence of Results into fresh statistics
and finalizing with Calculate, every operation kind whose sample collection
is non-empty satisfies P50 ≤ P90 ≤ P99 ≤ Max and Min ≤ Avg ≤ Max. -/
theorem stats_percentile_order :
    ∀ (rs : List Result) (st ed : Int),
      ((rs.foldl Stats.AddResult NewStats).GetTTFBs ≠ [] →
        KindFiguresOrdered
          (((rs.foldl Stats.AddResult NewStats).Calculate st ed).P50GetTTFB)
          (((rs.foldl Stats.AddResult NewStats).Calculate st ed).P90GetTTFB)
          (((rs.foldl Stats.AddResult NewStats).Calculate st ed).P99GetTTFB)
          (((rs.foldl Stats.AddResult NewStats).Calculate st ed).MinGetTTFB)
          (((rs.foldl Stats.AddResult NewStats).Calculate st ed).AvgGetTTFB)
          (((rs.foldl Stats.AddResult NewStats).Calculate st ed).MaxGetTTFB)) ∧
      ((rs.foldl Stats.AddResult NewStats).GetTTLBs ≠ [] →
        KindFiguresOrdered
          (((rs.foldl Stats.AddResult NewStats).Calculate st ed).P50GetTTLB)
          (((rs.foldl Stats.AddResult NewStats).Calculate st ed).P90GetTTLB)
          (((rs.foldl Stats.AddResult NewStats).Calculate st ed).P99GetTTLB)
          (((rs.foldl Stats.AddResult NewStats).Calculate st ed).MinGetTTLB)
          (((rs.foldl Stats.AddResult NewStats).Calculate st ed).AvgGetTTLB)
          (((rs.foldl Stats.AddResult NewStats).Calculate st ed).MaxGetTTLB)) ∧
      ((rs.foldl Stats.AddResult NewStats).PutTTLBs ≠ [] →
        KindFiguresOrdered
          (((rs.foldl Stats.AddResult NewStats).Calculate st ed).P50PutTTLB)
          (((rs.foldl Stats.AddResult NewStats).Calculate st ed).P90PutTTLB)
          (((rs.foldl Stats.AddResult NewStats).Calculate st ed).P99PutTTLB)
          (((rs.foldl Stats.AddResult NewStats).Calculate st ed).MinPutTTLB)
          (((rs.foldl Stats.AddResult NewStats).Calculate st ed).AvgPutTTLB)
          (((rs.foldl Stats.AddResult NewStats).Calculate st ed).MaxPutTTLB)) := by
  intro rs st ed
  obtain ⟨hfb, hlb, hpb, hlen⟩ := sampleBounds_foldl rs
  set t := rs.foldl Stats.AddResult NewStats with ht
  refine ⟨?_, ?_, ?_⟩
  · intro hne
    have hlbne : t.GetTTLBs ≠ [] := by
      intro hc
      apply hne
      have h1 : t.GetTTLBs.length = 0 := by rw [hc]; rfl
      have h2 : t.GetTTFBs.length = 0 := by omega
      exact List.length_eq_zero.mp h2
    obtain ⟨e1, e2, e3, e4, e5, e6, e7, e8, e9, e10, e11, e12⟩ :=
      Calculate_get_char t st ed hne hlbne
    obtain ⟨o1, o2, o3, o4, o5⟩ :=
      figures_ordered_of_bounds t.GetTTFBs t.MinGetTTFB t.MaxGetTTFB hne hfb
    exact ⟨by rw [e6, e7]; exact o1, by rw [e7, e8]; exact o2,
           by rw [e8, e2]; exact o3, by rw [e1, e5]; exact o4,
           by rw [e5, e2]; exact o5⟩
  · intro hne
    have hfbne : t.GetTTFBs ≠ [] := by
      intro hc
      apply hne
      have h1 : t.GetTTFBs.length = 0 := by rw [hc]; rfl
      have h2 : t.GetTTLBs.length = 0 := by omega
      exact List.length_eq_zero.mp h2
    obtain ⟨e1, e2, e3, e4, e5, e6, e7, e8, e9, e10, e11, e12⟩ :=
      Calculate_get_char t st ed hfbne hne
    obtain ⟨o1, o2, o3, o4, o5⟩ :=
      figures_ordered_of_bounds t.GetTTLBs t.MinGetTTLB t.MaxGetTTLB hne hlb
    exact ⟨by rw [e10, e11]; exact o1, by rw [e11, e12]; exact o2,
           by rw [e12, e4]; exact o3, by rw [e3, e9]; exact o4,
           by rw [e9, e4]; exact o5⟩
  · intro hne
    obtain ⟨e1, e2, e3, e4, e5, e6⟩ := Calculate_put_char t st ed hne
    obtain ⟨o1, o2, o3, o4, o5⟩ :=
      figures_ordered_of_bounds t.PutTTLBs t.MinPutTTLB t.MaxPutTTLB hne hpb
    exact ⟨by rw [e4, e5]; exact o1, by rw [e5, e6]; exact o2,
           by rw [e6, e2]; exact o3, by rw [e1, e3]; exact o4,
           by rw [e3, e2]; exact o5⟩

/-- A second successful PUT result used in witnesses. -/
def okPut2 : Result :=
  { Timestamp := 2, Operation := "PUT", ObjectKey := "q", TTFB := -1, TTLB := 250000000,
    BytesDownloaded := 0, BytesUploaded := 2048, Error := "" }

/-- Witness for C4: the PUT figure ordering on a concrete run of two
successful PUTs. -/
theorem stats_percentile_order_witness :
    KindFiguresOrdered
      ((([okPut, okPut2].foldl Stats.AddResult NewStats).Calculate 0 400000000).P50PutTTLB)
      ((([okPut, okPut2].foldl Stats.AddResult NewStats).Calculate 0 400000000).P90PutTTLB)
      ((([okPut, okPut2].foldl Stats.AddResult NewStats).Calculate 0 400000000).P99PutTTLB)
      ((([okPut, okPut2].foldl Stats.AddResult NewStats).Calculate 0 400000000).MinPutTTLB)
      ((([okPut, okPut2].foldl Stats.AddResult NewStats).Calculate 0 400000000).AvgPutTTLB)
      ((([okPut, okPut2].foldl Stats.AddResult NewStats).Calculate 0 400000000).MaxPutTTLB) :=
  (stats_percentile_order [okPut, okPut2] 0 400000000).2.2 (by decide)

/-- All six derived figures of one operation kind are exactly zero. -/
def KindFiguresZero (mn mx avg p50 p90 p99 : Duration) : Prop :=
  mn = 0 ∧ mx = 0 ∧ avg = 0 ∧ p50 = 0 ∧ p90 = 0 ∧ p99 = 0

/-- CLAIM C9: a kind whose sample collection is empty when Calculate runs
reports exactly zero for Min, Max, Avg, P50, P90 and P99 — never the
negative sentinel or the large initialization value; in particular a run
with zero successful PUTs reports zero for every PUT latency figure. -/
theorem stats_empty_kind_zero :
    ∀ (rs : List Result) (st ed : Int),
      ((rs.foldl Stats.AddResult NewStats).GetTTFBs = [] →
        KindFiguresZero
          (((rs.foldl Stats.AddResult NewStats).Calculate st ed).MinGetTTFB)
          (((rs.foldl Stats.AddResult NewStats).Calculate st ed).MaxGetTTFB)
          (((rs.foldl Stats.AddResult NewStats).Calculate st ed).AvgGetTTFB)
          (((rs.foldl Stats.AddResult NewStats).Calculate st ed).P50GetTTFB)
          (((rs.foldl Stats.AddResult NewStats).Calculate st ed).P90GetTTFB)
          (((rs.foldl Stats.AddResult NewStats).Calculate st ed).P99GetTTFB)) ∧
      ((rs.foldl Stats.AddResult NewStats).GetTTLBs = [] →
        KindFiguresZero
          (((rs.foldl Stats.AddResult NewStats).Calculate st ed).MinGetTTLB)
          (((rs.foldl Stats.AddResult NewStats).Calculate st ed).MaxGetTTLB)
          (((rs.foldl Stats.AddResult NewStats).Calculate st ed).AvgGetTTLB)
          (((rs.foldl Stats.AddResult NewStats).Calculate st ed).P50GetTTLB)
          (((rs.foldl Stats.AddResult NewStats).Calculate st ed).P90GetTTLB)
          (((rs.foldl Stats.AddResult NewStats).Calculate st ed).P99GetTTLB)) ∧
      ((rs.foldl Stats.AddResult NewStats).PutTTLBs = [] →
        KindFiguresZero
          (((rs.foldl Stats.AddResult NewStats).Calculate st ed).MinPutTTLB)
          (((rs.foldl Stats.AddResult NewStats).Calculate st ed).MaxPutTTLB)
          (((rs.foldl Stats.AddResult NewStats).Calculate st ed).AvgPutTTLB)
          (((rs.foldl Stats.AddResult NewStats).Calculate st ed).P50PutTTLB)
          (((rs.foldl Stats.AddResult NewStats).Calculate st ed).P90PutTTLB)
          (((rs.foldl Stats.AddResult NewStats).Calculate st ed).P99PutTTLB)) ∧
      ((∀ r ∈ rs, r.Operation = "PUT" → r.Error ≠ "") →
        KindFiguresZero
          (((rs.foldl Stats.AddResult NewStats).Calculate st ed).MinPutTTLB)
          (((rs.foldl Stats.AddResult NewStats).Calculate st ed).MaxPutTTLB)
          (((rs.foldl Stats.AddResult NewStats).Calculate st ed).AvgPutTTLB)
          (((rs.foldl Stats.AddResult NewStats).Calculate st ed).P50PutTTLB)
          (((rs.foldl Stats.AddResult NewStats).Calculate st ed).P90PutTTLB)
          (((rs.foldl Stats.AddResult NewStats).Calculate st ed).P99PutTTLB)) := by
  intro rs st ed
  obtain ⟨d1, d2, d3, d4, d5, d6, d7, d8, d9, d10, d11, d12, hfb0, hlb0, hpb0⟩ :=
    initialDerived_foldl rs
  obtain ⟨hfb, hlb, hpb, hlen⟩ := sampleBounds_foldl rs
  set t := rs.foldl Stats.AddResult NewStats with ht
  have hget : t.GetTTFBs = [] → t.GetTTLBs = [] := by
    intro hc
    have h1 : t.GetTTFBs.length = 0 := by rw [hc]; rfl
    have h2 : t.GetTTLBs.length = 0 := by omega
    exact List.length_eq_zero.mp h2
  have hget2 : t.GetTTLBs = [] → t.GetTTFBs = [] := by
    intro hc
    have h1 : t.GetTTLBs.length = 0 := by rw [hc]; rfl
    have h2 : t.GetTTFBs.length = 0 := by omega
    exact List.length_eq_zero.mp h2
  refine ⟨?_, ?_, ?_, ?_⟩
  · intro hfbe
    have hlbe := hget hfbe
    obtain ⟨sfb1, sfb2⟩ := hfb0 hfbe
    obtain ⟨slb1, slb2⟩ := hlb0 hlbe
    obtain ⟨z1, z2, z3, z4, z5, z6, z7, z8, z9, z10, z11, z12⟩ :=
      Calculate_get_zero t st ed hfbe hlbe sfb1 sfb2 slb1 slb2 d1 d2 d3 d4 d5 d6 d7 d8
    exact ⟨z1, z2, z3, z4, z5, z6⟩
  · intro hlbe
    have hfbe := hget2 hlbe
    obtain ⟨sfb1, sfb2⟩ := hfb0 hfbe
    obtain ⟨slb1, slb2⟩ := hlb0 hlbe
    obtain ⟨z1, z2, z3, z4, z5, z6, z7, z8, z9, z10, z11, z12⟩ :=
      Calculate_get_zero t st ed hfbe hlbe sfb1 sfb2 slb1 slb2 d1 d2 d3 d4 d5 d6 d7 d8
    exact ⟨z7, z8, z9, z10, z11, z12⟩
  · intro hpbe
    obtain ⟨sp1, sp2⟩ := hpb0 hpbe
    obtain ⟨z1, z2, z3, z4, z5, z6⟩ :=
      Calculate_put_zero t st ed hpbe sp1 sp2 d9 d10 d11 d12
    exact ⟨z1, z2, z3, z4, z5, z6⟩
  · intro hnoput
    have hpbe : t.PutTTLBs = [] := foldl_PutTTLBs_empty rs NewStats hnoput rfl
    obtain ⟨sp1, sp2⟩ := hpb0 hpbe
    obtain ⟨z1, z2, z3, z4, z5, z6⟩ :=
      Calculate_put_zero t st ed hpbe sp1 sp2 d9 d10 d11 d12
    exact ⟨z1, z2, z3, z4, z5, z6⟩

/-- A successful GET result used in witnesses. -/
def okGet : Result :=
  { Timestamp := 3, Operation := "GET", ObjectKey := "g", TTFB := 30000000,
    TTLB := 90000000, BytesDownloaded := 2048, BytesUploaded := 0, Error := "" }

/-- Witness for C9: a run with only one successful GET reports zero for
every PUT latency figure. -/
theorem stats_empty_kind_zero_witness :
    KindFiguresZero
      ((([okGet].foldl Stats.AddResult NewStats).Calculate 0 100000000).MinPutTTLB)
      ((([okGet].foldl Stats.AddResult NewStats).Calculate 0 100000000).MaxPutTTLB)
      ((([okGet].foldl Stats.AddResult NewStats).Calculate 0 100000000).AvgPutTTLB)
      ((([okGet].foldl Stats.AddResult NewStats).Calculate 0 100000000).P50PutTTLB)
      ((([okGet].foldl Stats.AddResult NewStats).Calculate 0 100000000).P90PutTTLB)
      ((([okGet].foldl Stats.AddResult NewStats).Calculate 0 100000000).P99PutTTLB) :=
  (stats_empty_kind_zero [okGet] 0 100000000).2.2.1 (by decide)

end Ostresser